import Mathlib

/-!
# Console example (`src/main.c`): embedding and verified properties

A shallow embedding of `main.c`: the credential gate `check_user_auth`, the
three command handlers `do_name`, `do_setid`, `do_setip` over the device
fields `device_name`, `device_ip`, `device_id`, and the event handler
`urc_callback`.  The three `CMD_ADD` registrations are kept as a table; the
dispatcher that serves them is part of the console library, not of the
sources, and is modelled from the spec.

Conventions of the embedding.

* A `char` is a `Nat` (its byte value).  A value of type `List Nat` used as a
  `const char *` argument stands for the bytes found at the pointer; the
  string it denotes ends at the first `0` byte, or at the end of the list,
  where the terminating NUL sits.  `IsCStr s` says that `s` is exactly the
  denoted string (no `0` byte inside).
* The static arrays `device_name[50]` and `device_ip[100]` are byte lists
  (the whole array, terminator and the bytes behind it included).
* The target is the 32-bit ARM ABI of the SDK: `int`, `long`, `unsigned int`,
  `unsigned long` and `uint32_t` are 32 bits wide.
* `printf` appends bytes to the standard output; a handler returns the bytes
  it printed.  `debug` is a library call taking a level and a `printf`-style
  format; `urc_callback` returns the list of `debug` calls it made, each one a
  diagnostic.  Whether the library shows a call of a given level is decided
  outside the program.
-/

namespace Console

/-! ## C strings -/

/-- Bytes of a string literal of the source, without the terminating NUL. -/
def lit (s : String) : List Nat := s.toList.map Char.toNat

/-- The string denoted by the bytes at a `char *`: everything before the
first NUL. -/
def cstr (s : List Nat) : List Nat := s.takeWhile (fun c => c != 0)

/-- A byte list that is a C string as it stands: no NUL inside. -/
def IsCStr (s : List Nat) : Prop := ∀ c ∈ s, c ≠ 0

instance (s : List Nat) : Decidable (IsCStr s) := by
  unfold IsCStr; infer_instance

/-- C `strlen`: number of bytes before the terminating NUL. -/
def strlen (s : List Nat) : Nat := (cstr s).length

/-- C `strcmp`: difference of the first pair of bytes that differ, `0` when
both strings end together.  The end of a list reads as the terminating NUL. -/
def strcmp : List Nat → List Nat → Int
  | [], [] => 0
  | [], b :: _ => 0 - (b : Int)
  | a :: _, [] => (a : Int)
  | a :: s, b :: t =>
    if a ≠ b then (a : Int) - (b : Int)
    else if a = 0 then 0
    else strcmp s t

/-- C `strcpy(dst, src)`: the bytes of `src` up to and including its NUL are
written over the start of the array `dst`; the bytes of `dst` behind them
keep their value. -/
def strcpy (dst src : List Nat) : List Nat :=
  cstr src ++ 0 :: dst.drop (strlen src + 1)

/-! ## Credential gate -/

/-- Modelled from the spec: the result codes `AUTH_*` of the authentication
callback, declared in `console.h`, which is not part of the sources.  The spec
gives the privilege levels as the enumeration FAIL, USER, ADMIN. -/
inductive auth_t where
  | AUTH_FAIL
  | AUTH_USER
  | AUTH_ADMIN
  deriving DecidableEq

open auth_t

/-- Embedding of `check_user_auth` (main.c:118-135). -/
def check_user_auth (username pass : List Nat) : auth_t :=
  if strcmp username (lit "admin") = 0 ∧ strcmp pass (lit "adminpass") = 0 then
    AUTH_ADMIN
  else if strcmp pass (lit "pass") = 0 then
    AUTH_USER
  else
    AUTH_FAIL

/-! ## Formatted output -/

/-- Decimal numeral of a natural number as ASCII bytes, most significant
digit first (`dec 0` is the single digit `0`). -/
def dec (n : Nat) : List Nat := (Nat.toDigits 10 n).map Char.toNat

/-- Conversions `%d` and `%ld` applied to a 32-bit argument: the bits are read
as a two's-complement `int` / `long` and written as a signed decimal. -/
def fmt_d (v : Nat) : List Nat :=
  if v % 2 ^ 32 < 2 ^ 31 then dec (v % 2 ^ 32) else 45 :: dec (2 ^ 32 - v % 2 ^ 32)

/-- A variadic argument of `printf` / `debug`. -/
inductive Arg where
  /-- a 32-bit integer argument, given by its unsigned value -/
  | int (v : Nat)
  /-- a `char *` argument, given by the bytes at the pointer -/
  | str (s : List Nat)
  deriving DecidableEq

/-- Text produced by a `printf`-style format: `%d` (bytes 37, 100) and `%ld`
(37, 108, 100) consume an integer argument, `%s` (37, 115) a string argument;
every other byte is copied. -/
def vformat : List Nat → List Arg → List Nat
  | [], _ => []
  | 37 :: 100 :: fmt, Arg.int v :: args => fmt_d v ++ vformat fmt args
  | 37 :: 108 :: 100 :: fmt, Arg.int v :: args => fmt_d v ++ vformat fmt args
  | 37 :: 115 :: fmt, Arg.str s :: args => cstr s ++ vformat fmt args
  | c :: fmt, args => c :: vformat fmt args

/-- C `printf(fmt, args...)`: the bytes appended to the standard output. -/
def printf (fmt : List Nat) (args : List Arg) : List Nat := vformat fmt args

/-! ## Number parsing -/

/-- C `isspace` in the "C" locale: space, and `\t \n \v \f \r`. -/
def isspace (c : Nat) : Bool := c == 32 || (9 ≤ c && c ≤ 13)

/-- C `isdigit`. -/
def isdigit (c : Nat) : Bool := 48 ≤ c && c ≤ 57

/-- The largest `unsigned long` of the target. -/
def ULONG_MAX : Nat := 2 ^ 32 - 1

/-- Value of the longest prefix of decimal digits, continuing from `acc`. -/
def strtoul_digits : List Nat → Nat → Nat
  | [], acc => acc
  | c :: s, acc => if isdigit c then strtoul_digits s (acc * 10 + (c - 48)) else acc

/-- C `strtoul(s, NULL, 10)`: leading white space is skipped, one sign is
accepted, then the longest run of decimal digits is converted.  A value above
`ULONG_MAX` gives `ULONG_MAX`; otherwise a leading minus negates the value in
`unsigned long` arithmetic.  No digits give `0`. -/
def strtoul (s : List Nat) : Nat :=
  let body := s.dropWhile isspace
  let neg := body.head? = some 45
  let digits := if body.head? = some 45 ∨ body.head? = some 43 then body.tail else body
  let v := strtoul_digits digits 0
  if v > ULONG_MAX then ULONG_MAX
  else if neg then (2 ^ 32 - v) % 2 ^ 32
  else v

/-! ## Device state and command handlers -/

/-- Modelled from the spec: the return codes `CMD_RET_*` of a command handler,
declared in `command.h`, which is not part of the sources.  The spec gives the
exit statuses as the closed set SUCCESS, FAILURE. -/
inductive cmd_ret where
  | CMD_RET_SUCCESS
  | CMD_RET_FAILURE
  deriving DecidableEq

open cmd_ret

/-- The static variables of main.c:20-21: `char device_name[50]`,
`char device_ip[100]`, `uint32_t device_id`. -/
structure DeviceState where
  device_name : List Nat
  device_ip : List Nat
  device_id : Nat
  deriving DecidableEq

/-- The value of `sizeof(device_name)`. -/
def sizeof_device_name : Nat := 50

/-- The value of `sizeof(device_ip)`. -/
def sizeof_device_ip : Nat := 100

/-- State at program start: static storage is zero-initialised. -/
def initial_state : DeviceState :=
  { device_name := List.replicate sizeof_device_name 0
    device_ip := List.replicate sizeof_device_ip 0
    device_id := 0 }

/-- What one handler call did: the return code, the device state after the
call and the bytes printed. -/
structure Outcome where
  ret : cmd_ret
  state : DeviceState
  out : List Nat
  deriving DecidableEq

/-- Embedding of `do_name` (main.c:145-161).  The result is `none` when the
handler reads `argv[1]` outside the argument list.  The parameter `info` is
not used by the handler and is left out. -/
def do_name (argc : Int) (argv : List (List Nat)) (st : DeviceState) : Option Outcome :=
  if argc = 1 then
    some ⟨CMD_RET_SUCCESS, st,
      printf (lit "Current name set is: %s\n") [Arg.str st.device_name]⟩
  else
    match argv[1]? with
    | none => none
    | some a =>
      if strlen a ≥ sizeof_device_name then
        some ⟨CMD_RET_FAILURE, st, printf (lit "Length too long\n") []⟩
      else
        let st1 := { st with device_name := strcpy st.device_name a }
        some ⟨CMD_RET_SUCCESS, st1,
          printf (lit "New name set to: %s\n") [Arg.str st1.device_name]⟩

/-- Embedding of `do_setid` (main.c:163-173); `none` as for `do_name`.  The
result of `strtoul` is stored in a `uint32_t`. -/
def do_setid (argc : Int) (argv : List (List Nat)) (st : DeviceState) : Option Outcome :=
  if argc = 1 then
    some ⟨CMD_RET_SUCCESS, st, printf (lit "ID is %ld\n") [Arg.int st.device_id]⟩
  else
    match argv[1]? with
    | none => none
    | some a =>
      let st1 := { st with device_id := strtoul a % 2 ^ 32 }
      some ⟨CMD_RET_SUCCESS, st1, printf (lit "New ID is %ld\n") [Arg.int st1.device_id]⟩

/-- Embedding of `do_setip` (main.c:175-190); `none` as for `do_name`. -/
def do_setip (argc : Int) (argv : List (List Nat)) (st : DeviceState) : Option Outcome :=
  if argc = 1 then
    some ⟨CMD_RET_SUCCESS, st, printf (lit "IP is %s\n") [Arg.str st.device_ip]⟩
  else
    match argv[1]? with
    | none => none
    | some a =>
      if strlen a ≥ sizeof_device_ip then
        some ⟨CMD_RET_FAILURE, st, printf (lit "Length too long\n") []⟩
      else
        let st1 := { st with device_ip := strcpy st.device_ip a }
        some ⟨CMD_RET_SUCCESS, st1, printf (lit "IP set to %s\n") [Arg.str st1.device_ip]⟩

/-! ## Event handler -/

/-- The enumerators of `ril.h` that `urc_callback` names.  The header is not
part of the sources, so their numeric values are parameters of the
embedding. -/
structure ril_h where
  URC_SYS_INIT_STATE_IND : Nat
  URC_SIM_CARD_STATE_IND : Nat
  URC_GSM_NW_STATE_IND : Nat
  URC_GPRS_NW_STATE_IND : Nat
  URC_CFUN_STATE_IND : Nat
  URC_COMING_CALL_IND : Nat
  URC_CALL_STATE_IND : Nat
  URC_NEW_SMS_IND : Nat
  URC_MODULE_VOLTAGE_IND : Nat
  URC_ALARM_RING_IND : Nat
  URC_FILE_DOWNLOAD_STATUS : Nat
  URC_FOTA_STARTED : Nat
  URC_FOTA_FINISHED : Nat
  URC_FOTA_FAILED : Nat
  URC_STKPCI_RSP_IND : Nat
  SYS_STATE_SMSOK : Nat
  SIM_STAT_NOT_INSERTED : Nat
  SIM_STAT_READY : Nat
  SIM_STAT_PIN_REQ : Nat
  SIM_STAT_PUK_REQ : Nat
  SIM_STAT_NOT_READY : Nat
  CALL_STATE_BUSY : Nat
  CALL_STATE_NO_ANSWER : Nat
  CALL_STATE_NO_CARRIER : Nat
  CALL_STATE_NO_DIALTONE : Nat

/-- The case labels of the outer `switch (param1)`, in source order. -/
def ril_h.urc_labels (K : ril_h) : List Nat :=
  [K.URC_SYS_INIT_STATE_IND, K.URC_SIM_CARD_STATE_IND, K.URC_GSM_NW_STATE_IND,
   K.URC_GPRS_NW_STATE_IND, K.URC_CFUN_STATE_IND, K.URC_COMING_CALL_IND,
   K.URC_CALL_STATE_IND, K.URC_NEW_SMS_IND, K.URC_MODULE_VOLTAGE_IND,
   K.URC_ALARM_RING_IND, K.URC_FILE_DOWNLOAD_STATUS, K.URC_FOTA_STARTED,
   K.URC_FOTA_FINISHED, K.URC_FOTA_FAILED, K.URC_STKPCI_RSP_IND]

/-- The case labels of the SIM-state `switch (param2)`, in source order. -/
def ril_h.sim_labels (K : ril_h) : List Nat :=
  [K.SIM_STAT_NOT_INSERTED, K.SIM_STAT_READY, K.SIM_STAT_PIN_REQ,
   K.SIM_STAT_PUK_REQ, K.SIM_STAT_NOT_READY]

/-- The case labels of the call-state `switch (param2)`, in source order. -/
def ril_h.call_labels (K : ril_h) : List Nat :=
  [K.CALL_STATE_BUSY, K.CALL_STATE_NO_ANSWER, K.CALL_STATE_NO_CARRIER,
   K.CALL_STATE_NO_DIALTONE]

/-- What a C compiler demands of the header for `urc_callback` to compile:
the case labels of each `switch` are pairwise distinct. -/
def ril_h.labels_distinct (K : ril_h) : Prop :=
  K.urc_labels.Nodup ∧ K.sim_labels.Nodup ∧ K.call_labels.Nodup

instance (K : ril_h) : Decidable K.labels_distinct := by
  unfold ril_h.labels_distinct; infer_instance

/-- One numbering of the enumerators with distinct labels (consecutive values
per enumeration), for evaluating the handler on concrete events. -/
def sample_ril_h : ril_h :=
  { URC_SYS_INIT_STATE_IND := 1
    URC_SIM_CARD_STATE_IND := 2
    URC_GSM_NW_STATE_IND := 3
    URC_GPRS_NW_STATE_IND := 4
    URC_CFUN_STATE_IND := 5
    URC_COMING_CALL_IND := 6
    URC_CALL_STATE_IND := 7
    URC_NEW_SMS_IND := 8
    URC_MODULE_VOLTAGE_IND := 9
    URC_ALARM_RING_IND := 10
    URC_FILE_DOWNLOAD_STATUS := 11
    URC_FOTA_STARTED := 12
    URC_FOTA_FINISHED := 13
    URC_FOTA_FAILED := 14
    URC_STKPCI_RSP_IND := 15
    SYS_STATE_SMSOK := 2
    SIM_STAT_NOT_INSERTED := 0
    SIM_STAT_READY := 1
    SIM_STAT_PIN_REQ := 2
    SIM_STAT_PUK_REQ := 3
    SIM_STAT_NOT_READY := 4
    CALL_STATE_BUSY := 0
    CALL_STATE_NO_ANSWER := 1
    CALL_STATE_NO_CARRIER := 2
    CALL_STATE_NO_DIALTONE := 3 }

/-- Modelled from the spec: the record `struct ril_callinfo_t`, declared in
`ril.h`, which is not part of the sources: call information with a caller
identifier string.  Only the field the program reads is kept, the `char`
array `number`. -/
structure ril_callinfo_t where
  number : List Nat
  deriving DecidableEq

/-- The two level enumerators the program passes to `debug` (`DBG_*` of
`lib.h`, which is not part of the sources); the embedding only records which
one a call was given. -/
inductive debug_level where
  | DBG_OFF
  | DBG_INFO
  deriving DecidableEq

open debug_level

/-- One call `debug(level, fmt, args...)` of the library logger: a
diagnostic. -/
structure debug_call where
  level : debug_level
  fmt : List Nat
  args : List Arg
  deriving DecidableEq

/-- The message of a diagnostic: its `printf`-style format applied to its
arguments. -/
def debug_call.text (d : debug_call) : List Nat := vformat d.fmt d.args

/-- The call `debug(level, fmt, args...)`. -/
def debug (level : debug_level) (fmt : List Nat) (args : List Arg) : debug_call :=
  { level := level, fmt := fmt, args := args }

/-- Embedding of `urc_callback` (main.c:28-108): the diagnostics emitted for
the event `(param1, param2)`, in order.  `K` gives the enumerators of `ril.h`;
`mem a` is the call-info record found at address `a`, read by the cast
`(struct ril_callinfo_t *)param2`.  Each `switch` is the chain of comparisons
with its case labels in source order. -/
def urc_callback (K : ril_h) (mem : Nat → ril_callinfo_t) (param1 param2 : Nat) :
    List debug_call :=
  if param1 = K.URC_SYS_INIT_STATE_IND then
    (if param2 = K.SYS_STATE_SMSOK then [] else [])
  else if param1 = K.URC_SIM_CARD_STATE_IND then
    (if param2 = K.SIM_STAT_NOT_INSERTED then
      [debug DBG_OFF (lit "SYSTEM: SIM card not inserted!\n") []]
    else if param2 = K.SIM_STAT_READY then
      [debug DBG_INFO (lit "SYSTEM: SIM card Ready!\n") []]
    else if param2 = K.SIM_STAT_PIN_REQ then
      [debug DBG_OFF (lit "SYSTEM: SIM PIN required!\n") []]
    else if param2 = K.SIM_STAT_PUK_REQ then
      [debug DBG_OFF (lit "SYSTEM: SIM PUK required!\n") []]
    else if param2 = K.SIM_STAT_NOT_READY then
      [debug DBG_OFF (lit "SYSTEM: SIM card not recognized!\n") []]
    else
      [debug DBG_OFF (lit "SYSTEM: SIM ERROR: %d\n") [Arg.int param2]])
  else if param1 = K.URC_GSM_NW_STATE_IND then
    [debug DBG_OFF (lit "SYSTEM: GSM NW State: %d\n") [Arg.int param2]]
  else if param1 = K.URC_GPRS_NW_STATE_IND then
    []
  else if param1 = K.URC_CFUN_STATE_IND then
    []
  else if param1 = K.URC_COMING_CALL_IND then
    [debug DBG_OFF (lit "Incoming voice call from: %s\n") [Arg.str (mem param2).number]]
  else if param1 = K.URC_CALL_STATE_IND then
    (if param2 = K.CALL_STATE_BUSY then
      [debug DBG_OFF (lit "The number you dialed is busy now\n") []]
    else if param2 = K.CALL_STATE_NO_ANSWER then
      [debug DBG_OFF (lit "The number you dialed has no answer\n") []]
    else if param2 = K.CALL_STATE_NO_CARRIER then
      [debug DBG_OFF (lit "The number you dialed cannot reach\n") []]
    else if param2 = K.CALL_STATE_NO_DIALTONE then
      [debug DBG_OFF (lit "No Dial tone\n") []]
    else
      [])
  else if param1 = K.URC_NEW_SMS_IND then
    [debug DBG_OFF (lit "SMS: New SMS (%d)\n") [Arg.int param2]]
  else if param1 = K.URC_MODULE_VOLTAGE_IND then
    [debug DBG_INFO (lit "VBatt Voltage: %d\n") [Arg.int param2]]
  else if param1 = K.URC_ALARM_RING_IND then
    []
  else if param1 = K.URC_FILE_DOWNLOAD_STATUS then
    []
  else if param1 = K.URC_FOTA_STARTED then
    []
  else if param1 = K.URC_FOTA_FINISHED then
    []
  else if param1 = K.URC_FOTA_FAILED then
    []
  else if param1 = K.URC_STKPCI_RSP_IND then
    []
  else
    []

/-! ## Effect of the event handler on the device variables -/

/-- The event handler as a step on the program state: the body of
`urc_callback` (main.c:28-108) contains no assignment to `device_name`,
`device_ip` or `device_id` and calls nothing but `debug`, so the device state
is handed on as it is, next to the diagnostics emitted. -/
def urc_callback_step (K : ril_h) (mem : Nat → ril_callinfo_t) (param1 param2 : Nat)
    (st : DeviceState) : DeviceState × List debug_call :=
  (st, urc_callback K mem param1 param2)

/-! ## Sequences of handler calls -/

/-- The three command handlers of main.c. -/
inductive handler_id where
  | name
  | setid
  | setip
  deriving DecidableEq

/-- One call of a handler: which one, and the arguments `argc`, `argv`. -/
structure Call where
  handler : handler_id
  argc : Int
  argv : List (List Nat)
  deriving DecidableEq

/-- The call is made the way the arity bounds [1, 2] of the registration
allow: `argc` is 1 or 2 and `argv` has exactly `argc` entries. -/
def Call.in_bounds (c : Call) : Prop :=
  (c.argc = 1 ∨ c.argc = 2) ∧ (c.argv.length : Int) = c.argc

instance (c : Call) : Decidable c.in_bounds := by
  unfold Call.in_bounds; infer_instance

/-- Run one call on a device state. -/
def Call.run (c : Call) (st : DeviceState) : Option Outcome :=
  match c.handler with
  | handler_id.name => do_name c.argc c.argv st
  | handler_id.setid => do_setid c.argc c.argv st
  | handler_id.setip => do_setip c.argc c.argv st

/-- Run a sequence of calls, each on the state the one before left; `none` as
soon as one call reads outside its argument list. -/
def run_calls : List Call → DeviceState → Option DeviceState
  | [], st => some st
  | c :: cs, st =>
    match c.run st with
    | none => none
    | some o => run_calls cs o.state

/-- The device arrays have their declared sizes and each holds a string that
leaves room for its terminator: at most 49 bytes of name in the 50-byte array
and at most 99 bytes of address in the 100-byte array. -/
def buffers_ok (st : DeviceState) : Prop :=
  st.device_name.length = sizeof_device_name ∧ strlen st.device_name ≤ 49 ∧
  st.device_ip.length = sizeof_device_ip ∧ strlen st.device_ip ≤ 99

instance (st : DeviceState) : Decidable (buffers_ok st) := by
  unfold buffers_ok; infer_instance

/-! ## The value `strtoul` is claimed to compute -/

/-- The longest leading decimal numeral of a string: its leading digits. -/
def leading_numeral (s : List Nat) : List Nat := s.takeWhile isdigit

/-- The value of a decimal numeral, most significant digit first; the empty
numeral has value `0`. -/
def numeral_value (l : List Nat) : Nat := l.foldl (fun acc c => acc * 10 + (c - 48)) 0

/-- The id that `do_setid` stores for the argument `s`, if the call returns. -/
def stored_id (s : List Nat) (st : DeviceState) : Option Nat :=
  (do_setid 2 [lit "setid", s] st).map (fun o => o.state.device_id)

/-! ## Command registry and dispatcher

The macro `CMD_ADD`, the type `struct cmdinfo_t` and the dispatcher that calls
the handlers belong to the console library (`command.h`, `console.h`) and are
not part of the sources.  The three registrations of main.c:205-233 are taken
from the source; the descriptor type, the lookup and the dispatch algorithm
follow the spec (sections 3, 4.1, 4.2). -/

/-- Modelled from the spec: the flag set of a descriptor, "drawn from DEFAULT,
HIDDEN, CONSOLE_ONLY".  The enumerators carry the names main.c passes to
`CMD_ADD`; their declaration in `command.h` is missing.  A descriptor keeps
the list of flags joined by `|` in its registration. -/
inductive cmd_flag where
  | CMD_TYPE_DEFAULT
  | CMD_TYPE_HIDDEN
  | CMD_ALLOW_CONSOLE
  deriving DecidableEq

open cmd_flag

/-- Modelled from the spec: the command descriptor `struct cmdinfo_t` built by
the missing macro `CMD_ADD(name, minArgs, maxArgs, handler, helpText,
usageText, flagSet)`. -/
structure cmdinfo_t where
  name : List Nat
  min_args : Nat
  max_args : Nat
  handler : Int → List (List Nat) → DeviceState → Option Outcome
  help : List Nat
  usage : List Nat
  flags : List cmd_flag

/-- The descriptors registered by main.c:205, 221 and 233, in source order. -/
def registry : List cmdinfo_t :=
  [ { name := lit "name", min_args := 1, max_args := 2, handler := do_name
      help := lit "Set/get device name", usage := lit "name [value]"
      flags := [CMD_TYPE_DEFAULT] },
    { name := lit "setid", min_args := 1, max_args := 2, handler := do_setid
      help := lit "Set/get device ID", usage := lit "setid [value]"
      flags := [CMD_TYPE_HIDDEN] },
    { name := lit "setip", min_args := 1, max_args := 2, handler := do_setip
      help := lit "set/get current IP", usage := lit "setip [IP/domain]"
      flags := [CMD_TYPE_HIDDEN, CMD_ALLOW_CONSOLE] } ]

/-- Modelled from the spec: `lookup(name)` of the command registry, missing
from the sources: the first descriptor with that name, if any. -/
def lookup (reg : List cmdinfo_t) (name : List Nat) : Option cmdinfo_t :=
  reg.find? (fun d => d.name == name)

/-- Modelled from the spec: `listVisible(privilege)` of the command registry,
missing from the sources: the descriptors "excluding those flagged HIDDEN, for
help rendering; ordering is registration order". -/
def list_visible (reg : List cmdinfo_t) (_privilege : auth_t) : List cmdinfo_t :=
  reg.filter (fun d => !(d.flags.contains CMD_TYPE_HIDDEN))

/-- Modelled from the spec: the order of the privilege levels, "ordered by
capability (ADMIN, USER, NONE)". -/
def auth_t.rank : auth_t → Nat
  | AUTH_FAIL => 0
  | AUTH_USER => 1
  | AUTH_ADMIN => 2

/-- Modelled from the spec: the "implicit minimum privilege level required to
invoke" a command, "admin-only unless otherwise noted".  The notes are the
comments of main.c:195-196, 210-212 and 229-230: a command of the default type
runs for a user or an admin, a hidden one for an admin. -/
def cmdinfo_t.required (d : cmdinfo_t) : auth_t :=
  if d.flags.contains CMD_TYPE_HIDDEN then AUTH_ADMIN else AUTH_USER

/-- Modelled from the spec: a console session, missing from the sources: its
current privilege level, and whether its lines come from the privileged local
console channel. -/
structure ConsoleSession where
  privilege : auth_t
  console : Bool
  deriving DecidableEq

/-- Modelled from the spec: the failures the dispatcher itself reports,
distinct from one another: unknown command, argument count outside the bounds,
missing privilege. -/
inductive exec_error where
  | unknown_command
  | usage_error
  | authorization_failure
  deriving DecidableEq

open exec_error

/-- Modelled from the spec: what `execute` hands back: the exit status, the
dispatcher failure reported (if any), the number of handler invocations, the
device state after the line and the bytes the handler printed. -/
structure ExecResult where
  status : cmd_ret
  report : Option exec_error
  handler_runs : Nat
  state : DeviceState
  out : List Nat
  deriving DecidableEq

/-- Modelled from the spec: step 1 of `execute`, continued: the tokens of a
line split at white space, the token being read in `cur`. -/
def tokens_from : List Nat → List Nat → List (List Nat)
  | [], cur => if cur = [] then [] else [cur]
  | c :: s, cur =>
    if isspace c then
      (if cur = [] then tokens_from s [] else cur :: tokens_from s [])
    else tokens_from s (cur ++ [c])

/-- Modelled from the spec: step 1 of `execute`: "Tokenize rawLine by
whitespace into a sequence of arguments (argument 0 = command name)". -/
def tokenize (line : List Nat) : List (List Nat) := tokens_from (cstr line) []

/-- Modelled from the spec: steps 1 to 5 of `execute` (section 4.2) on the
tokens of a line; the dispatcher is missing from the sources.  An empty line
is a success without effect; an unknown name, a token count outside
`[min, max]` and a missing privilege are reported failures that leave the
handler alone; the privilege check lets a command through when the session
has the required level, or when the command is flagged `CMD_ALLOW_CONSOLE` and
the line comes from the console; otherwise the handler runs once with
the tokens and its status is handed on.  The result is `none` when the handler
reads outside its arguments. -/
def execute_tokens (reg : List cmdinfo_t) (sess : ConsoleSession)
    (tokens : List (List Nat)) (st : DeviceState) : Option ExecResult :=
  match tokens with
  | [] => some ⟨CMD_RET_SUCCESS, none, 0, st, []⟩
  | name :: _ =>
    match lookup reg name with
    | none => some ⟨CMD_RET_FAILURE, some unknown_command, 0, st, []⟩
    | some d =>
      if tokens.length < d.min_args ∨ d.max_args < tokens.length then
        some ⟨CMD_RET_FAILURE, some usage_error, 0, st, []⟩
      else if sess.privilege.rank < d.required.rank ∧
          ¬ (d.flags.contains CMD_ALLOW_CONSOLE = true ∧ sess.console = true) then
        some ⟨CMD_RET_FAILURE, some authorization_failure, 0, st, []⟩
      else
        match d.handler (tokens.length : Int) tokens st with
        | none => none
        | some o => some ⟨o.ret, none, 1, o.state, o.out⟩

/-- Modelled from the spec: `execute(rawLine, session)` on the registry of
main.c. -/
def execute (line : List Nat) (sess : ConsoleSession) (st : DeviceState) :
    Option ExecResult :=
  execute_tokens registry sess (tokenize line) st

/-! ## Sample inputs -/

/-- A string of fifty bytes, the shortest name that `do_name` rejects. -/
def name50 : List Nat := List.replicate 50 97

/-- A string of one hundred bytes, the shortest address that `do_setip`
rejects. -/
def ip100 : List Nat := List.replicate 100 49

/-- A device state with non-default fields, for evaluating the handlers. -/
def sample_state : DeviceState :=
  { device_name := lit "unit7" ++ List.replicate 45 0
    device_ip := lit "10.0.0.1" ++ List.replicate 92 0
    device_id := 42 }

/-- A memory in which every address holds a call-info record with the number
"5550100". -/
def sample_mem : Nat → ril_callinfo_t := fun _ => { number := lit "5550100" }

/-! ## Lemmas on C strings -/

theorem cstr_of_isCStr {s : List Nat} (h : IsCStr s) : cstr s = s := by
  unfold cstr
  rw [List.takeWhile_eq_self_iff]
  intro c hc
  simpa using h c hc

theorem strlen_of_isCStr {s : List Nat} (h : IsCStr s) : strlen s = s.length := by
  unfold strlen
  rw [cstr_of_isCStr h]

theorem cstr_nil : cstr [] = [] := rfl

theorem cstr_cons_zero (s : List Nat) : cstr (0 :: s) = [] := by
  simp [cstr]

theorem cstr_cons_ne {a : Nat} (h : a ≠ 0) (s : List Nat) :
    cstr (a :: s) = a :: cstr s := by
  simp [cstr, h]

/-- The function `strcmp` returns `0` exactly on equal strings. -/
theorem strcmp_eq_zero_iff (a b : List Nat) : strcmp a b = 0 ↔ cstr a = cstr b := by
  induction a generalizing b with
  | nil =>
    cases b with
    | nil => simp [strcmp]
    | cons y t =>
      by_cases hy : y = 0
      · subst hy; simp [strcmp, cstr_cons_zero, cstr_nil]
      · simp [strcmp, cstr_cons_ne hy, cstr_nil]
        omega
  | cons x s ih =>
    cases b with
    | nil =>
      by_cases hx : x = 0
      · subst hx; simp [strcmp, cstr_cons_zero, cstr_nil]
      · simp [strcmp, cstr_cons_ne hx, cstr_nil]
        omega
    | cons y t =>
      by_cases hxy : x = y
      · subst hxy
        by_cases hx : x = 0
        · subst hx; simp [strcmp, cstr_cons_zero]
        · simp [strcmp, hx, cstr_cons_ne hx, ih]
      · by_cases hx : x = 0
        · subst hx
          have hy : y ≠ 0 := fun h => hxy h.symm
          simp [strcmp, hxy, cstr_cons_zero, cstr_cons_ne hy]
          omega
        · by_cases hy : y = 0
          · subst hy
            simp [strcmp, hx, cstr_cons_zero, cstr_cons_ne hx]
          · simp [strcmp, hxy, cstr_cons_ne hx, cstr_cons_ne hy]
            omega

theorem isCStr_lit_admin : IsCStr (lit "admin") := by decide
theorem isCStr_lit_adminpass : IsCStr (lit "adminpass") := by decide
theorem isCStr_lit_pass : IsCStr (lit "pass") := by decide

theorem isCStr_cstr (s : List Nat) : IsCStr (cstr s) := by
  intro c hc
  have h := List.mem_takeWhile_imp hc
  simpa using h

theorem cstr_append_zero {s : List Nat} (h : IsCStr s) (r : List Nat) :
    cstr (s ++ 0 :: r) = s := by
  induction s with
  | nil => simp [cstr]
  | cons a t ih =>
    have ha : a ≠ 0 := h a (List.mem_cons_self a t)
    have ht : IsCStr t := fun c hc => h c (List.mem_cons_of_mem a hc)
    rw [List.cons_append, cstr_cons_ne ha, ih ht]

/-- After `strcpy(dst, src)` the array `dst` holds the string of `src`. -/
theorem cstr_strcpy (dst src : List Nat) : cstr (strcpy dst src) = cstr src := by
  unfold strcpy
  exact cstr_append_zero (isCStr_cstr src) _

/-- When the source string and its NUL fit, `strcpy` keeps the array size. -/
theorem length_strcpy (dst src : List Nat) (h : strlen src + 1 ≤ dst.length) :
    (strcpy dst src).length = dst.length := by
  unfold strcpy
  simp only [List.length_append, List.length_cons, List.length_drop]
  unfold strlen at h ⊢
  omega

theorem strcmp_lit_iff {s : List Nat} (h : IsCStr s) (l : List Nat) (hl : IsCStr l) :
    strcmp s l = 0 ↔ s = l := by
  rw [strcmp_eq_zero_iff, cstr_of_isCStr h, cstr_of_isCStr hl]

/-! ## The credential gate -/

/-- The three-way decision of `check_user_auth` on the denoted strings. -/
theorem check_user_auth_eq (username pass : List Nat) :
    check_user_auth username pass =
      if cstr username = lit "admin" ∧ cstr pass = lit "adminpass" then AUTH_ADMIN
      else if cstr pass = lit "pass" then AUTH_USER
      else AUTH_FAIL := by
  unfold check_user_auth
  simp only [strcmp_eq_zero_iff, cstr_of_isCStr isCStr_lit_admin,
    cstr_of_isCStr isCStr_lit_adminpass, cstr_of_isCStr isCStr_lit_pass]

theorem lit_pass_ne_adminpass : lit "pass" ≠ lit "adminpass" := by decide

/-- C1. `check_user_auth` returns `AUTH_ADMIN` exactly when the identity is
the string "admin" and the secret is the string "adminpass". -/
theorem check_user_auth_admin_iff (username pass : List Nat)
    (hu : IsCStr username) (hp : IsCStr pass) :
    check_user_auth username pass = AUTH_ADMIN ↔
      username = lit "admin" ∧ pass = lit "adminpass" := by
  rw [check_user_auth_eq, cstr_of_isCStr hu, cstr_of_isCStr hp]
  constructor
  · intro h
    split at h
    · assumption
    · split at h <;> cases h
  · intro h
    rw [if_pos h]

/-- Witness of C1: the pair ("admin", "adminpass") is granted `AUTH_ADMIN`,
and ("admin", "pass") is not. -/
theorem check_user_auth_admin_iff_witness :
    check_user_auth (lit "admin") (lit "adminpass") = AUTH_ADMIN ∧
      check_user_auth (lit "admin") (lit "pass") ≠ AUTH_ADMIN :=
  ⟨(check_user_auth_admin_iff (lit "admin") (lit "adminpass")
      (by decide) (by decide)).mpr ⟨rfl, rfl⟩,
   fun h => absurd ((check_user_auth_admin_iff (lit "admin") (lit "pass")
      (by decide) (by decide)).mp h).2 (by decide)⟩

/-- C2. Every identity with the secret "pass" gets `AUTH_USER`; a secret other
than "pass" that is not the admin pair gets `AUTH_FAIL` (so does
("x", "wrong")); the outcome is `AUTH_USER` exactly for the secret "pass" and
`AUTH_FAIL` exactly for the rest, so with C1 the three outcomes partition the
inputs. -/
theorem check_user_auth_user_fail (identity username pass : List Nat)
    (hu : IsCStr username) (hp : IsCStr pass) :
    check_user_auth identity (lit "pass") = AUTH_USER ∧
    (pass ≠ lit "pass" → ¬ (username = lit "admin" ∧ pass = lit "adminpass") →
      check_user_auth username pass = AUTH_FAIL) ∧
    check_user_auth (lit "x") (lit "wrong") = AUTH_FAIL ∧
    (check_user_auth username pass = AUTH_USER ↔ pass = lit "pass") ∧
    (check_user_auth username pass = AUTH_FAIL ↔
      pass ≠ lit "pass" ∧ ¬ (username = lit "admin" ∧ pass = lit "adminpass")) := by
  have key := check_user_auth_eq username pass
  rw [cstr_of_isCStr hu, cstr_of_isCStr hp] at key
  refine ⟨?_, ?_, by decide, ?_, ?_⟩
  · rw [check_user_auth_eq, cstr_of_isCStr isCStr_lit_pass]
    rw [if_neg (fun h => lit_pass_ne_adminpass h.2), if_pos rfl]
  · intro h1 h2
    rw [key, if_neg h2, if_neg h1]
  · rw [key]
    constructor
    · intro h
      split at h
      · cases h
      · split at h
        · assumption
        · cases h
    · intro h
      rw [if_neg (fun h2 => lit_pass_ne_adminpass (h ▸ h2.2)), if_pos h]
  · rw [key]
    constructor
    · intro h
      split at h
      · cases h
      · split at h
        · cases h
        · exact ⟨by assumption, by assumption⟩
    · intro h
      rw [if_neg h.2, if_neg h.1]

/-- Witness of C2 at identity "admin", username "x", secret "wrong". -/
theorem check_user_auth_user_fail_witness :
    check_user_auth (lit "admin") (lit "pass") = AUTH_USER ∧
      check_user_auth (lit "x") (lit "wrong") = AUTH_FAIL :=
  ⟨(check_user_auth_user_fail (lit "admin") (lit "x") (lit "wrong")
      (by decide) (by decide)).1,
   (check_user_auth_user_fail (lit "admin") (lit "x") (lit "wrong")
      (by decide) (by decide)).2.1 (by decide) (by decide)⟩

/-! ## The name and address handlers -/

/-- C3. Name round trip: for every device state and every string `X` shorter
than the bound 50, `do_name` with arguments ["name", X] returns
`CMD_RET_SUCCESS` and leaves `X` in `device_name` (the other fields keep
their value); `do_name` with arguments ["name"] in the state reached returns
`CMD_RET_SUCCESS`, keeps the state and prints `X` as the current name. -/
theorem do_name_round_trip (st : DeviceState) (X : List Nat)
    (hX : IsCStr X) (hlen : X.length < 50) :
    ∃ st1 : DeviceState,
      do_name 2 [lit "name", X] st =
        some ⟨CMD_RET_SUCCESS, st1, lit "New name set to: " ++ X ++ lit "\n"⟩ ∧
      cstr st1.device_name = X ∧
      st1.device_ip = st.device_ip ∧ st1.device_id = st.device_id ∧
      do_name 1 [lit "name"] st1 =
        some ⟨CMD_RET_SUCCESS, st1, lit "Current name set is: " ++ X ++ lit "\n"⟩ := by
  have hs : ¬ strlen X ≥ sizeof_device_name := by
    rw [strlen_of_isCStr hX]
    unfold sizeof_device_name
    omega
  have hc : cstr (strcpy st.device_name X) = X := by
    rw [cstr_strcpy, cstr_of_isCStr hX]
  refine ⟨{ st with device_name := strcpy st.device_name X }, ?_, hc, rfl, rfl, ?_⟩
  · have hne : ¬ ((2 : Int) = 1) := by decide
    simp only [do_name, hne, if_false, List.getElem?_cons_succ, List.getElem?_cons_zero, hs]
    show some (Outcome.mk CMD_RET_SUCCESS _
      (lit "New name set to: " ++ cstr (strcpy st.device_name X) ++ lit "\n")) = _
    rw [hc]
  · simp only [do_name, if_true]
    show some (Outcome.mk CMD_RET_SUCCESS _
      (lit "Current name set is: " ++ cstr (strcpy st.device_name X) ++ lit "\n")) = _
    rw [hc]

/-- Witness of C3: the name "dev" set on the initial state and read back. -/
theorem do_name_round_trip_witness :
    ∃ st1 : DeviceState,
      do_name 2 [lit "name", lit "dev"] initial_state =
        some ⟨CMD_RET_SUCCESS, st1, lit "New name set to: " ++ lit "dev" ++ lit "\n"⟩ ∧
      cstr st1.device_name = lit "dev" ∧
      st1.device_ip = initial_state.device_ip ∧
      st1.device_id = initial_state.device_id ∧
      do_name 1 [lit "name"] st1 =
        some ⟨CMD_RET_SUCCESS, st1, lit "Current name set is: " ++ lit "dev" ++ lit "\n"⟩ :=
  do_name_round_trip initial_state (lit "dev") (by decide) (by decide)

/-- C4. Name rejection is atomic: for every device state and every string `X`
of length 50 or more, `do_name` with arguments ["name", X] returns
`CMD_RET_FAILURE`, prints the diagnostic "Length too long" and leaves every
device field as it was. -/
theorem do_name_reject (st : DeviceState) (X : List Nat)
    (hX : IsCStr X) (hlen : 50 ≤ X.length) :
    do_name 2 [lit "name", X] st =
      some ⟨CMD_RET_FAILURE, st, lit "Length too long\n"⟩ := by
  have hs : strlen X ≥ sizeof_device_name := by
    rw [strlen_of_isCStr hX]
    exact hlen
  have hne : ¬ ((2 : Int) = 1) := by decide
  simp only [do_name, hne, if_false, List.getElem?_cons_succ, List.getElem?_cons_zero, hs,
    if_true]
  rfl

/-- Witness of C4: a name of exactly fifty bytes is refused and the sample
state is kept. -/
theorem do_name_reject_witness :
    do_name 2 [lit "name", name50] sample_state =
      some ⟨CMD_RET_FAILURE, sample_state, lit "Length too long\n"⟩ :=
  do_name_reject sample_state name50 (by decide) (by decide)

/-- C10. Address handler bound: for every device state and every string `X`,
`do_setip` with arguments ["setip", X] returns `CMD_RET_FAILURE`, prints
"Length too long" and keeps the whole state when `X` has length 100 or more;
when `X` is shorter it returns `CMD_RET_SUCCESS`, leaves `X` in `device_ip`,
and `do_setip` with arguments ["setip"] in the state reached returns
`CMD_RET_SUCCESS` and prints `X`. -/
theorem do_setip_bound (st : DeviceState) (X : List Nat) (hX : IsCStr X) :
    (100 ≤ X.length →
      do_setip 2 [lit "setip", X] st =
        some ⟨CMD_RET_FAILURE, st, lit "Length too long\n"⟩) ∧
    (X.length < 100 →
      ∃ st1 : DeviceState,
        do_setip 2 [lit "setip", X] st =
          some ⟨CMD_RET_SUCCESS, st1, lit "IP set to " ++ X ++ lit "\n"⟩ ∧
        cstr st1.device_ip = X ∧
        st1.device_name = st.device_name ∧ st1.device_id = st.device_id ∧
        do_setip 1 [lit "setip"] st1 =
          some ⟨CMD_RET_SUCCESS, st1, lit "IP is " ++ X ++ lit "\n"⟩) := by
  have hne : ¬ ((2 : Int) = 1) := by decide
  constructor
  · intro hlen
    have hs : strlen X ≥ sizeof_device_ip := by
      rw [strlen_of_isCStr hX]
      exact hlen
    simp only [do_setip, hne, if_false, List.getElem?_cons_succ, List.getElem?_cons_zero, hs,
      if_true]
    rfl
  · intro hlen
    have hs : ¬ strlen X ≥ sizeof_device_ip := by
      rw [strlen_of_isCStr hX]
      unfold sizeof_device_ip
      omega
    have hc : cstr (strcpy st.device_ip X) = X := by
      rw [cstr_strcpy, cstr_of_isCStr hX]
    refine ⟨{ st with device_ip := strcpy st.device_ip X }, ?_, hc, rfl, rfl, ?_⟩
    · simp only [do_setip, hne, if_false, List.getElem?_cons_succ, List.getElem?_cons_zero,
        hs]
      show some (Outcome.mk CMD_RET_SUCCESS _
        (lit "IP set to " ++ cstr (strcpy st.device_ip X) ++ lit "\n")) = _
      rw [hc]
    · simp only [do_setip, if_true]
      show some (Outcome.mk CMD_RET_SUCCESS _
        (lit "IP is " ++ cstr (strcpy st.device_ip X) ++ lit "\n")) = _
      rw [hc]

/-- Witness of C10: an address of one hundred bytes is refused on the sample
state, and the address "10.1.2.3" is stored and read back. -/
theorem do_setip_bound_witness :
    do_setip 2 [lit "setip", ip100] sample_state =
      some ⟨CMD_RET_FAILURE, sample_state, lit "Length too long\n"⟩ ∧
    ∃ st1 : DeviceState,
      do_setip 2 [lit "setip", lit "10.1.2.3"] sample_state =
        some ⟨CMD_RET_SUCCESS, st1, lit "IP set to " ++ lit "10.1.2.3" ++ lit "\n"⟩ ∧
      cstr st1.device_ip = lit "10.1.2.3" ∧
      st1.device_name = sample_state.device_name ∧
      st1.device_id = sample_state.device_id ∧
      do_setip 1 [lit "setip"] st1 =
        some ⟨CMD_RET_SUCCESS, st1, lit "IP is " ++ lit "10.1.2.3" ++ lit "\n"⟩ :=
  ⟨(do_setip_bound sample_state ip100 (by decide)).1 (by decide),
   (do_setip_bound sample_state (lit "10.1.2.3") (by decide)).2 (by decide)⟩

/-! ## Decimal numerals and `strtoul` -/

theorem digitChar_toNat : ∀ d, d < 10 → (Nat.digitChar d).toNat = 48 + d := by decide

theorem toDigitsCore_append (fuel : Nat) : ∀ (n : Nat) (ds : List Char),
    Nat.toDigitsCore 10 fuel n ds = Nat.toDigitsCore 10 fuel n [] ++ ds := by
  induction fuel with
  | zero => intro n ds; simp [Nat.toDigitsCore]
  | succ f ih =>
    intro n ds
    simp only [Nat.toDigitsCore]
    split
    · simp
    · rw [ih (n / 10) (Nat.digitChar (n % 10) :: ds), ih (n / 10) [Nat.digitChar (n % 10)]]
      simp

theorem strtoul_digits_append (l r : List Nat) (h : ∀ c ∈ l, isdigit c = true) (acc : Nat) :
    strtoul_digits (l ++ r) acc = strtoul_digits r (strtoul_digits l acc) := by
  induction l generalizing acc with
  | nil => rfl
  | cons c t ih =>
    have hc : isdigit c = true := h c (List.mem_cons_self c t)
    have ht : ∀ c ∈ t, isdigit c = true := fun x hx => h x (List.mem_cons_of_mem c hx)
    simp only [List.cons_append, strtoul_digits, hc, if_true]
    exact ih ht _

theorem toDigitsCore_spec (fuel : Nat) : ∀ n, n < fuel →
    (∀ c ∈ (Nat.toDigitsCore 10 fuel n []).map Char.toNat, isdigit c = true) ∧
    (Nat.toDigitsCore 10 fuel n []).map Char.toNat ≠ [] ∧
    strtoul_digits ((Nat.toDigitsCore 10 fuel n []).map Char.toNat) 0 = n := by
  induction fuel with
  | zero => intro n hn; omega
  | succ f ih =>
    intro n hn
    have hd : (Nat.digitChar (n % 10)).toNat = 48 + n % 10 :=
      digitChar_toNat _ (Nat.mod_lt _ (by decide))
    have hdig : isdigit (48 + n % 10) = true := by
      have := Nat.mod_lt n (show 0 < 10 by decide)
      simp [isdigit]; omega
    simp only [Nat.toDigitsCore]
    split
    · rename_i h0
      refine ⟨?_, by simp, ?_⟩
      · intro c hc
        simp only [List.map_cons, List.map_nil, List.mem_singleton] at hc
        rw [hc, hd]; exact hdig
      · simp only [List.map_cons, List.map_nil, strtoul_digits, hd, hdig, if_true]
        omega
    · rename_i h0
      have hlt : n / 10 < f := by omega
      obtain ⟨h1, _, h3⟩ := ih (n / 10) hlt
      rw [toDigitsCore_append, List.map_append]
      refine ⟨?_, by simp, ?_⟩
      · intro c hc
        rw [List.mem_append] at hc
        rcases hc with hc | hc
        · exact h1 c hc
        · simp only [List.map_cons, List.map_nil, List.mem_singleton] at hc
          rw [hc, hd]; exact hdig
      · rw [strtoul_digits_append _ _ h1, h3]
        simp only [List.map_cons, List.map_nil, strtoul_digits, hd, hdig, if_true]
        omega

theorem dec_digits (n : Nat) : ∀ c ∈ dec n, isdigit c = true :=
  (toDigitsCore_spec (n + 1) n (Nat.lt_succ_self n)).1

theorem dec_ne_nil (n : Nat) : dec n ≠ [] :=
  (toDigitsCore_spec (n + 1) n (Nat.lt_succ_self n)).2.1

theorem strtoul_digits_dec (n : Nat) : strtoul_digits (dec n) 0 = n :=
  (toDigitsCore_spec (n + 1) n (Nat.lt_succ_self n)).2.2

theorem dec_injective {m n : Nat} (h : dec m = dec n) : m = n := by
  rw [← strtoul_digits_dec m, ← strtoul_digits_dec n, h]

/-- The function `strtoul` reads back the decimal numeral of every value an
`unsigned long` can hold. -/
theorem strtoul_dec (n : Nat) (hn : n < 2 ^ 32) : strtoul (dec n) = n := by
  have hv := strtoul_digits_dec n
  have hall := dec_digits n
  have hne := dec_ne_nil n
  cases hd : dec n with
  | nil => exact absurd hd hne
  | cons c t =>
    rw [hd] at hv hall
    have hc : isdigit c = true := hall c (List.mem_cons_self c t)
    have hc2 : 48 ≤ c ∧ c ≤ 57 := by simpa [isdigit] using hc
    have hsp : isspace c = false := by
      simp [isspace]; omega
    have h45 : c ≠ 45 := by omega
    have h43 : c ≠ 43 := by omega
    have hle : ¬ n > ULONG_MAX := by unfold ULONG_MAX; omega
    simp [strtoul, List.dropWhile, hsp, h45, h43, hv, hle]

theorem fmt_d_of_lt {v : Nat} (h : v < 2 ^ 31) : fmt_d v = dec v := by
  unfold fmt_d
  have h1 : v % 2 ^ 32 = v := Nat.mod_eq_of_lt (by omega)
  rw [h1, if_pos h]

theorem fmt_d_of_ge {v : Nat} (h1 : 2 ^ 31 ≤ v) (h2 : v < 2 ^ 32) :
    fmt_d v = 45 :: dec (2 ^ 32 - v) := by
  unfold fmt_d
  have h3 : v % 2 ^ 32 = v := Nat.mod_eq_of_lt h2
  rw [h3, if_neg (by omega)]

/-- The conversion `%d` maps distinct 32-bit values to distinct texts. -/
theorem fmt_d_injective {v w : Nat} (hv : v < 2 ^ 32) (hw : w < 2 ^ 32)
    (h : fmt_d v = fmt_d w) : v = w := by
  have hminus : ∀ n, 45 ∉ dec n := fun n hmem => by
    have := dec_digits n 45 hmem
    simp [isdigit] at this
  by_cases h1 : v < 2 ^ 31
  · by_cases h2 : w < 2 ^ 31
    · rw [fmt_d_of_lt h1, fmt_d_of_lt h2] at h
      exact dec_injective h
    · rw [fmt_d_of_lt h1, fmt_d_of_ge (by omega) hw] at h
      exact absurd (h ▸ List.mem_cons_self 45 _) (hminus v)
  · by_cases h2 : w < 2 ^ 31
    · rw [fmt_d_of_ge (by omega) hv, fmt_d_of_lt h2] at h
      exact absurd (h ▸ List.mem_cons_self 45 _) (hminus w)
    · rw [fmt_d_of_ge (by omega) hv, fmt_d_of_ge (by omega) hw] at h
      have := dec_injective (List.tail_eq_of_cons_eq h)
      omega

/-! ## The id handler -/

/-- The read form of `do_setid` prints the stored id with `%ld` and keeps the
state. -/
theorem do_setid_get (st : DeviceState) :
    do_setid 1 [lit "setid"] st =
      some ⟨CMD_RET_SUCCESS, st, lit "ID is " ++ fmt_d st.device_id ++ lit "\n"⟩ := by
  simp only [do_setid, if_true]
  rfl

/-- The write form of `do_setid` on the decimal numeral of a 32-bit value `n`
succeeds and stores `n`. -/
theorem do_setid_set (st : DeviceState) (n : Nat) (hn : n < 2 ^ 32) :
    do_setid 2 [lit "setid", dec n] st =
      some ⟨CMD_RET_SUCCESS, { st with device_id := n },
        lit "New ID is " ++ fmt_d n ++ lit "\n"⟩ := by
  have hne : ¬ ((2 : Int) = 1) := by decide
  simp only [do_setid, hne, if_false, List.getElem?_cons_succ, List.getElem?_cons_zero,
    strtoul_dec n hn, Nat.mod_eq_of_lt hn]
  rfl

/-- Below `2 ^ 31` the id set from its numeral is printed back as that
numeral. -/
theorem do_setid_round_trip_small (st : DeviceState) (n : Nat) (hn : n < 2 ^ 31) :
    do_setid 2 [lit "setid", dec n] st =
      some ⟨CMD_RET_SUCCESS, { st with device_id := n },
        lit "New ID is " ++ dec n ++ lit "\n"⟩ ∧
    do_setid 1 [lit "setid"] { st with device_id := n } =
      some ⟨CMD_RET_SUCCESS, { st with device_id := n },
        lit "ID is " ++ dec n ++ lit "\n"⟩ := by
  rw [do_setid_set st n (by omega), do_setid_get, fmt_d_of_lt hn]
  exact ⟨rfl, rfl⟩

/-- C5, at the input `setid 4294967295`.  The numeral of the largest 32-bit
value is accepted and stored as it is, yet both the write form and the
following read form print it as `-1`, not as `4294967295`: the conversion
`%ld` reads the `uint32_t` as a signed `long`. -/
theorem do_setid_prints_negative (st : DeviceState) :
    dec 4294967295 = lit "4294967295" ∧
    do_setid 2 [lit "setid", lit "4294967295"] st =
      some ⟨CMD_RET_SUCCESS, { st with device_id := 4294967295 },
        lit "New ID is -1\n"⟩ ∧
    do_setid 1 [lit "setid"] { st with device_id := 4294967295 } =
      some ⟨CMD_RET_SUCCESS, { st with device_id := 4294967295 }, lit "ID is -1\n"⟩ ∧
    lit "ID is -1\n" ≠ lit "ID is " ++ dec 4294967295 ++ lit "\n" := by
  refine ⟨by decide, ?_, ?_, by decide⟩
  · have h := do_setid_set st 4294967295 (by norm_num)
    have hd : dec 4294967295 = lit "4294967295" := by decide
    rw [hd] at h
    rw [h]
    have : lit "New ID is " ++ fmt_d 4294967295 ++ lit "\n" = lit "New ID is -1\n" := by
      decide
    rw [this]
  · rw [do_setid_get]
    have : lit "ID is " ++ fmt_d 4294967295 ++ lit "\n" = lit "ID is -1\n" := by decide
    exact congrArg _ (congrArg _ this)

/-! ## The event handler -/

/-- The SIM-state event runs the inner `switch` on the sub-value. -/
theorem urc_callback_sim (K : ril_h) (hK : K.labels_distinct) (mem : Nat → ril_callinfo_t)
    (p : Nat) :
    urc_callback K mem K.URC_SIM_CARD_STATE_IND p =
      if p = K.SIM_STAT_NOT_INSERTED then
        [debug DBG_OFF (lit "SYSTEM: SIM card not inserted!\n") []]
      else if p = K.SIM_STAT_READY then
        [debug DBG_INFO (lit "SYSTEM: SIM card Ready!\n") []]
      else if p = K.SIM_STAT_PIN_REQ then
        [debug DBG_OFF (lit "SYSTEM: SIM PIN required!\n") []]
      else if p = K.SIM_STAT_PUK_REQ then
        [debug DBG_OFF (lit "SYSTEM: SIM PUK required!\n") []]
      else if p = K.SIM_STAT_NOT_READY then
        [debug DBG_OFF (lit "SYSTEM: SIM card not recognized!\n") []]
      else
        [debug DBG_OFF (lit "SYSTEM: SIM ERROR: %d\n") [Arg.int p]] := by
  have hu := hK.1
  simp only [ril_h.urc_labels, List.nodup_cons, List.mem_cons, List.mem_singleton, not_or,
    List.not_mem_nil, not_false_eq_true, List.nodup_nil, and_true] at hu
  have h1 : ¬ K.URC_SIM_CARD_STATE_IND = K.URC_SYS_INIT_STATE_IND := fun h => hu.1.1 h.symm
  simp only [urc_callback, h1, if_false, if_true]

/-- The call-state event runs the inner `switch` on the sub-value. -/
theorem urc_callback_call (K : ril_h) (hK : K.labels_distinct) (mem : Nat → ril_callinfo_t)
    (p : Nat) :
    urc_callback K mem K.URC_CALL_STATE_IND p =
      if p = K.CALL_STATE_BUSY then
        [debug DBG_OFF (lit "The number you dialed is busy now\n") []]
      else if p = K.CALL_STATE_NO_ANSWER then
        [debug DBG_OFF (lit "The number you dialed has no answer\n") []]
      else if p = K.CALL_STATE_NO_CARRIER then
        [debug DBG_OFF (lit "The number you dialed cannot reach\n") []]
      else if p = K.CALL_STATE_NO_DIALTONE then
        [debug DBG_OFF (lit "No Dial tone\n") []]
      else
        [] := by
  have hu := hK.1
  simp only [ril_h.urc_labels, List.nodup_cons, List.mem_cons, List.mem_singleton, not_or,
    List.not_mem_nil, not_false_eq_true, List.nodup_nil, and_true] at hu
  simp [urc_callback, hu, Ne.symm, eq_comm]

/-- The three events with a scalar payload make one `debug` call each, with
the payload as the argument of `%d`. -/
theorem urc_callback_scalar (K : ril_h) (hK : K.labels_distinct)
    (mem : Nat → ril_callinfo_t) (p : Nat) :
    urc_callback K mem K.URC_GSM_NW_STATE_IND p =
      [debug DBG_OFF (lit "SYSTEM: GSM NW State: %d\n") [Arg.int p]] ∧
    urc_callback K mem K.URC_NEW_SMS_IND p =
      [debug DBG_OFF (lit "SMS: New SMS (%d)\n") [Arg.int p]] ∧
    urc_callback K mem K.URC_MODULE_VOLTAGE_IND p =
      [debug DBG_INFO (lit "VBatt Voltage: %d\n") [Arg.int p]] := by
  have hu := hK.1
  simp only [ril_h.urc_labels, List.nodup_cons, List.mem_cons, List.mem_singleton, not_or,
    List.not_mem_nil, not_false_eq_true, List.nodup_nil, and_true] at hu
  refine ⟨?_, ?_, ?_⟩ <;> simp [urc_callback, hu, Ne.symm, eq_comm]

/-- The generic SIM diagnostic: its message is the prefix "SYSTEM: SIM ERROR: "
followed by the `%d` rendering of the sub-value. -/
theorem sim_error_text (v : Nat) :
    (debug DBG_OFF (lit "SYSTEM: SIM ERROR: %d\n") [Arg.int v]).text =
      lit "SYSTEM: SIM ERROR: " ++ fmt_d v ++ lit "\n" := rfl

/-- Texts of the three scalar diagnostics for a payload below `2 ^ 31`: the
decimal numeral of the payload between the fixed words. -/
theorem urc_scalar_text_small (K : ril_h) (hK : K.labels_distinct)
    (mem : Nat → ril_callinfo_t) (p : Nat) (hp : p < 2 ^ 31) :
    (urc_callback K mem K.URC_GSM_NW_STATE_IND p).map debug_call.text =
      [lit "SYSTEM: GSM NW State: " ++ dec p ++ lit "\n"] ∧
    (urc_callback K mem K.URC_NEW_SMS_IND p).map debug_call.text =
      [lit "SMS: New SMS (" ++ dec p ++ lit ")\n"] ∧
    (urc_callback K mem K.URC_MODULE_VOLTAGE_IND p).map debug_call.text =
      [lit "VBatt Voltage: " ++ dec p ++ lit "\n"] := by
  obtain ⟨h1, h2, h3⟩ := urc_callback_scalar K hK mem p
  rw [h1, h2, h3, ← fmt_d_of_lt hp]
  exact ⟨rfl, rfl, rfl⟩

/-- SIM-state routing, as far as it holds for every sub-value: each of the five
named sub-values makes `urc_callback` emit exactly one diagnostic, with the
message listed here; the five messages are pairwise distinct; every other
sub-value `v` makes it emit exactly one diagnostic, the generic format
"SYSTEM: SIM ERROR: %d" with `v` as its argument, whose message is the `%d`
rendering of `v`; two such sub-values below `2 ^ 32` never give the same
message. -/
theorem urc_sim_state_routing (K : ril_h) (hK : K.labels_distinct)
    (mem : Nat → ril_callinfo_t) (v w : Nat) :
    urc_callback K mem K.URC_SIM_CARD_STATE_IND K.SIM_STAT_NOT_INSERTED =
      [debug DBG_OFF (lit "SYSTEM: SIM card not inserted!\n") []] ∧
    urc_callback K mem K.URC_SIM_CARD_STATE_IND K.SIM_STAT_READY =
      [debug DBG_INFO (lit "SYSTEM: SIM card Ready!\n") []] ∧
    urc_callback K mem K.URC_SIM_CARD_STATE_IND K.SIM_STAT_PIN_REQ =
      [debug DBG_OFF (lit "SYSTEM: SIM PIN required!\n") []] ∧
    urc_callback K mem K.URC_SIM_CARD_STATE_IND K.SIM_STAT_PUK_REQ =
      [debug DBG_OFF (lit "SYSTEM: SIM PUK required!\n") []] ∧
    urc_callback K mem K.URC_SIM_CARD_STATE_IND K.SIM_STAT_NOT_READY =
      [debug DBG_OFF (lit "SYSTEM: SIM card not recognized!\n") []] ∧
    (∀ s ∈ K.sim_labels, (urc_callback K mem K.URC_SIM_CARD_STATE_IND s).length = 1) ∧
    (K.sim_labels.map (fun s =>
      (urc_callback K mem K.URC_SIM_CARD_STATE_IND s).map debug_call.text)).Nodup ∧
    (v ∉ K.sim_labels →
      urc_callback K mem K.URC_SIM_CARD_STATE_IND v =
        [debug DBG_OFF (lit "SYSTEM: SIM ERROR: %d\n") [Arg.int v]] ∧
      (urc_callback K mem K.URC_SIM_CARD_STATE_IND v).map debug_call.text =
        [lit "SYSTEM: SIM ERROR: " ++ fmt_d v ++ lit "\n"] ∧
      (w ∉ K.sim_labels → v < 2 ^ 32 → w < 2 ^ 32 → v ≠ w →
        (urc_callback K mem K.URC_SIM_CARD_STATE_IND v).map debug_call.text ≠
          (urc_callback K mem K.URC_SIM_CARD_STATE_IND w).map debug_call.text)) := by
  have hs := hK.2.1
  simp only [ril_h.sim_labels, List.nodup_cons, List.mem_cons, List.mem_singleton, not_or,
    List.not_mem_nil, not_false_eq_true, List.nodup_nil, and_true] at hs
  obtain ⟨⟨a12, a13, a14, a15⟩, ⟨a23, a24, a25⟩, ⟨a34, a35⟩, a45⟩ := hs
  have e1 : urc_callback K mem K.URC_SIM_CARD_STATE_IND K.SIM_STAT_NOT_INSERTED =
      [debug DBG_OFF (lit "SYSTEM: SIM card not inserted!\n") []] := by
    rw [urc_callback_sim K hK, if_pos rfl]
  have e2 : urc_callback K mem K.URC_SIM_CARD_STATE_IND K.SIM_STAT_READY =
      [debug DBG_INFO (lit "SYSTEM: SIM card Ready!\n") []] := by
    rw [urc_callback_sim K hK, if_neg (Ne.symm a12), if_pos rfl]
  have e3 : urc_callback K mem K.URC_SIM_CARD_STATE_IND K.SIM_STAT_PIN_REQ =
      [debug DBG_OFF (lit "SYSTEM: SIM PIN required!\n") []] := by
    rw [urc_callback_sim K hK, if_neg (Ne.symm a13), if_neg (Ne.symm a23), if_pos rfl]
  have e4 : urc_callback K mem K.URC_SIM_CARD_STATE_IND K.SIM_STAT_PUK_REQ =
      [debug DBG_OFF (lit "SYSTEM: SIM PUK required!\n") []] := by
    rw [urc_callback_sim K hK, if_neg (Ne.symm a14), if_neg (Ne.symm a24),
      if_neg (Ne.symm a34), if_pos rfl]
  have e5 : urc_callback K mem K.URC_SIM_CARD_STATE_IND K.SIM_STAT_NOT_READY =
      [debug DBG_OFF (lit "SYSTEM: SIM card not recognized!\n") []] := by
    rw [urc_callback_sim K hK, if_neg (Ne.symm a15), if_neg (Ne.symm a25),
      if_neg (Ne.symm a35), if_neg (Ne.symm a45), if_pos rfl]
  have other : ∀ u, u ∉ K.sim_labels →
      urc_callback K mem K.URC_SIM_CARD_STATE_IND u =
        [debug DBG_OFF (lit "SYSTEM: SIM ERROR: %d\n") [Arg.int u]] := by
    intro u hu
    simp only [ril_h.sim_labels, List.mem_cons, List.mem_singleton, not_or,
      List.not_mem_nil, not_false_eq_true, and_true] at hu
    obtain ⟨b1, b2, b3, b4, b5⟩ := hu
    rw [urc_callback_sim K hK, if_neg b1, if_neg b2, if_neg b3, if_neg b4, if_neg b5]
  refine ⟨e1, e2, e3, e4, e5, ?_, ?_, ?_⟩
  · intro s hmem
    simp only [ril_h.sim_labels, List.mem_cons, List.mem_singleton, List.not_mem_nil,
      or_false] at hmem
    rcases hmem with h | h | h | h | h <;> subst h
    · rw [e1]; rfl
    · rw [e2]; rfl
    · rw [e3]; rfl
    · rw [e4]; rfl
    · rw [e5]; rfl
  · simp only [ril_h.sim_labels, List.map_cons, List.map_nil, e1, e2, e3, e4, e5]
    decide
  · intro hv
    refine ⟨other v hv, ?_, ?_⟩
    · rw [other v hv]; rfl
    · intro hw hv32 hw32 hne heq
      rw [other v hv, other w hw] at heq
      simp only [List.map_cons, List.map_nil, sim_error_text, List.cons.injEq, and_true] at heq
      have h1 := List.append_cancel_left (List.append_cancel_right heq)
      exact hne (fmt_d_injective hv32 hw32 h1)

/-- The SIM-state routing on the sample numbering: sub-value 0 (not inserted)
and the unlisted sub-value 77. -/
theorem urc_sim_state_routing_witness :
    sample_ril_h.labels_distinct ∧
    urc_callback sample_ril_h sample_mem sample_ril_h.URC_SIM_CARD_STATE_IND
        sample_ril_h.SIM_STAT_NOT_INSERTED =
      [debug DBG_OFF (lit "SYSTEM: SIM card not inserted!\n") []] ∧
    (urc_callback sample_ril_h sample_mem sample_ril_h.URC_SIM_CARD_STATE_IND 77).map
        debug_call.text =
      [lit "SYSTEM: SIM ERROR: " ++ fmt_d 77 ++ lit "\n"] :=
  ⟨by decide,
   (urc_sim_state_routing sample_ril_h (by decide) sample_mem 77 78).1,
   ((urc_sim_state_routing sample_ril_h (by decide) sample_mem 77 78).2.2.2.2.2.2.2
      (by decide)).2.1⟩

/-- C7. Call-state routing and its asymmetry: each of the four named
sub-values makes `urc_callback` emit exactly one diagnostic, with the message
listed here; the four messages are pairwise distinct; every other sub-value
emits no diagnostic, while an unlisted SIM-state sub-value emits one. -/
theorem urc_call_state_routing (K : ril_h) (hK : K.labels_distinct)
    (mem : Nat → ril_callinfo_t) (v : Nat) :
    urc_callback K mem K.URC_CALL_STATE_IND K.CALL_STATE_BUSY =
      [debug DBG_OFF (lit "The number you dialed is busy now\n") []] ∧
    urc_callback K mem K.URC_CALL_STATE_IND K.CALL_STATE_NO_ANSWER =
      [debug DBG_OFF (lit "The number you dialed has no answer\n") []] ∧
    urc_callback K mem K.URC_CALL_STATE_IND K.CALL_STATE_NO_CARRIER =
      [debug DBG_OFF (lit "The number you dialed cannot reach\n") []] ∧
    urc_callback K mem K.URC_CALL_STATE_IND K.CALL_STATE_NO_DIALTONE =
      [debug DBG_OFF (lit "No Dial tone\n") []] ∧
    (∀ s ∈ K.call_labels, (urc_callback K mem K.URC_CALL_STATE_IND s).length = 1) ∧
    (K.call_labels.map (fun s =>
      (urc_callback K mem K.URC_CALL_STATE_IND s).map debug_call.text)).Nodup ∧
    (v ∉ K.call_labels → urc_callback K mem K.URC_CALL_STATE_IND v = []) ∧
    (v ∉ K.sim_labels → (urc_callback K mem K.URC_SIM_CARD_STATE_IND v).length = 1) := by
  have hc := hK.2.2
  simp only [ril_h.call_labels, List.nodup_cons, List.mem_cons, List.mem_singleton, not_or,
    List.not_mem_nil, not_false_eq_true, List.nodup_nil, and_true] at hc
  obtain ⟨⟨a12, a13, a14⟩, ⟨a23, a24⟩, a34⟩ := hc
  have e1 : urc_callback K mem K.URC_CALL_STATE_IND K.CALL_STATE_BUSY =
      [debug DBG_OFF (lit "The number you dialed is busy now\n") []] := by
    rw [urc_callback_call K hK, if_pos rfl]
  have e2 : urc_callback K mem K.URC_CALL_STATE_IND K.CALL_STATE_NO_ANSWER =
      [debug DBG_OFF (lit "The number you dialed has no answer\n") []] := by
    rw [urc_callback_call K hK, if_neg (Ne.symm a12), if_pos rfl]
  have e3 : urc_callback K mem K.URC_CALL_STATE_IND K.CALL_STATE_NO_CARRIER =
      [debug DBG_OFF (lit "The number you dialed cannot reach\n") []] := by
    rw [urc_callback_call K hK, if_neg (Ne.symm a13), if_neg (Ne.symm a23), if_pos rfl]
  have e4 : urc_callback K mem K.URC_CALL_STATE_IND K.CALL_STATE_NO_DIALTONE =
      [debug DBG_OFF (lit "No Dial tone\n") []] := by
    rw [urc_callback_call K hK, if_neg (Ne.symm a14), if_neg (Ne.symm a24),
      if_neg (Ne.symm a34), if_pos rfl]
  refine ⟨e1, e2, e3, e4, ?_, ?_, ?_, ?_⟩
  · intro s hmem
    simp only [ril_h.call_labels, List.mem_cons, List.mem_singleton, List.not_mem_nil,
      or_false] at hmem
    rcases hmem with h | h | h | h <;> subst h
    · rw [e1]; rfl
    · rw [e2]; rfl
    · rw [e3]; rfl
    · rw [e4]; rfl
  · simp only [ril_h.call_labels, List.map_cons, List.map_nil, e1, e2, e3, e4]
    decide
  · intro hv
    simp only [ril_h.call_labels, List.mem_cons, List.mem_singleton, not_or,
      List.not_mem_nil, not_false_eq_true, and_true] at hv
    obtain ⟨b1, b2, b3, b4⟩ := hv
    rw [urc_callback_call K hK, if_neg b1, if_neg b2, if_neg b3, if_neg b4]
  · intro hv
    simp only [ril_h.sim_labels, List.mem_cons, List.mem_singleton, not_or,
      List.not_mem_nil, not_false_eq_true, and_true] at hv
    obtain ⟨b1, b2, b3, b4, b5⟩ := hv
    rw [urc_callback_sim K hK, if_neg b1, if_neg b2, if_neg b3, if_neg b4, if_neg b5]
    rfl

/-- Witness of C7 on the sample numbering: the busy sub-value 0 and the
unlisted sub-value 9, which is silent for the call state and reported for the
SIM state. -/
theorem urc_call_state_routing_witness :
    sample_ril_h.labels_distinct ∧
    urc_callback sample_ril_h sample_mem sample_ril_h.URC_CALL_STATE_IND
        sample_ril_h.CALL_STATE_BUSY =
      [debug DBG_OFF (lit "The number you dialed is busy now\n") []] ∧
    urc_callback sample_ril_h sample_mem sample_ril_h.URC_CALL_STATE_IND 9 = [] ∧
    (urc_callback sample_ril_h sample_mem sample_ril_h.URC_SIM_CARD_STATE_IND 9).length = 1 :=
  ⟨by decide,
   (urc_call_state_routing sample_ril_h (by decide) sample_mem 9).1,
   (urc_call_state_routing sample_ril_h (by decide) sample_mem 9).2.2.2.2.2.2.1 (by decide),
   (urc_call_state_routing sample_ril_h (by decide) sample_mem 9).2.2.2.2.2.2.2 (by decide)⟩

/-- C8. Silent codes: for every payload `urc_callback` emits no diagnostic
when the event code is the system-init code, alarm, file-download status,
firmware-update started, finished or failed, or SIM-toolkit response, and
none when the code is not a case label of the outer `switch`. -/
theorem urc_silent_codes (K : ril_h) (hK : K.labels_distinct)
    (mem : Nat → ril_callinfo_t) (code p : Nat) :
    (code ∈ [K.URC_SYS_INIT_STATE_IND, K.URC_ALARM_RING_IND, K.URC_FILE_DOWNLOAD_STATUS,
        K.URC_FOTA_STARTED, K.URC_FOTA_FINISHED, K.URC_FOTA_FAILED,
        K.URC_STKPCI_RSP_IND] →
      urc_callback K mem code p = []) ∧
    (code ∉ K.urc_labels → urc_callback K mem code p = []) := by
  have hu := hK.1
  simp only [ril_h.urc_labels, List.nodup_cons, List.mem_cons, List.mem_singleton, not_or,
    List.not_mem_nil, not_false_eq_true, List.nodup_nil, and_true] at hu
  constructor
  · intro hmem
    simp only [List.mem_cons, List.mem_singleton, List.not_mem_nil, or_false] at hmem
    rcases hmem with h | h | h | h | h | h | h <;> subst h <;>
      simp [urc_callback, hu, Ne.symm, eq_comm]
  · intro hnot
    simp only [ril_h.urc_labels, List.mem_cons, List.mem_singleton, not_or,
      List.not_mem_nil, not_false_eq_true, and_true] at hnot
    simp [urc_callback, hnot]

/-- Witness of C8 on the sample numbering: the alarm code 10 and the
unassigned code 99, each with payload 7. -/
theorem urc_silent_codes_witness :
    sample_ril_h.labels_distinct ∧
    urc_callback sample_ril_h sample_mem sample_ril_h.URC_ALARM_RING_IND 7 = [] ∧
    urc_callback sample_ril_h sample_mem 99 7 = [] :=
  ⟨by decide,
   (urc_silent_codes sample_ril_h (by decide) sample_mem
      sample_ril_h.URC_ALARM_RING_IND 7).1 (by decide),
   (urc_silent_codes sample_ril_h (by decide) sample_mem 99 7).2 (by decide)⟩

/-- C9, at the payload `4294967295`.  Each of the network-state, new-SMS and
voltage events emits exactly one diagnostic, but its message shows `-1`, not
the payload `4294967295`: the conversion `%d` reads the `unsigned int` as a
signed `int`. -/
theorem urc_scalar_prints_negative (K : ril_h) (hK : K.labels_distinct)
    (mem : Nat → ril_callinfo_t) :
    dec 4294967295 = lit "4294967295" ∧
    (urc_callback K mem K.URC_GSM_NW_STATE_IND 4294967295).map debug_call.text =
      [lit "SYSTEM: GSM NW State: -1\n"] ∧
    (urc_callback K mem K.URC_NEW_SMS_IND 4294967295).map debug_call.text =
      [lit "SMS: New SMS (-1)\n"] ∧
    (urc_callback K mem K.URC_MODULE_VOLTAGE_IND 4294967295).map debug_call.text =
      [lit "VBatt Voltage: -1\n"] ∧
    lit "SYSTEM: GSM NW State: -1\n" ≠
      lit "SYSTEM: GSM NW State: " ++ dec 4294967295 ++ lit "\n" := by
  obtain ⟨h1, h2, h3⟩ := urc_callback_scalar K hK mem 4294967295
  rw [h1, h2, h3]
  exact ⟨by decide, by decide, by decide, by decide, by decide⟩

/-- Witness of C9 on the sample numbering: the network-state event with
payload `4294967295`. -/
theorem urc_scalar_prints_negative_witness :
    sample_ril_h.labels_distinct ∧
    (urc_callback sample_ril_h sample_mem sample_ril_h.URC_GSM_NW_STATE_IND
        4294967295).map debug_call.text =
      [lit "SYSTEM: GSM NW State: -1\n"] :=
  ⟨by decide, (urc_scalar_prints_negative sample_ril_h (by decide) sample_mem).2.1⟩

/-! ## The states a handler can leave -/

/-- A returning call of `do_name` keeps the state or copies `argv[1]`, a
string shorter than the array, into `device_name`. -/
theorem do_name_some {argc : Int} {argv : List (List Nat)} {st : DeviceState} {o : Outcome}
    (h : do_name argc argv st = some o) :
    o.state = st ∨ ∃ a, argv[1]? = some a ∧ strlen a < sizeof_device_name ∧
      o.state = { st with device_name := strcpy st.device_name a } := by
  unfold do_name at h
  split at h
  · left; cases h; rfl
  · split at h
    · cases h
    · rename_i a ha
      split at h
      · left; cases h; rfl
      · rename_i hlt
        right
        refine ⟨a, ha, by omega, ?_⟩
        cases h; rfl

/-- A returning call of `do_setip` keeps the state or copies `argv[1]`, a
string shorter than the array, into `device_ip`. -/
theorem do_setip_some {argc : Int} {argv : List (List Nat)} {st : DeviceState} {o : Outcome}
    (h : do_setip argc argv st = some o) :
    o.state = st ∨ ∃ a, argv[1]? = some a ∧ strlen a < sizeof_device_ip ∧
      o.state = { st with device_ip := strcpy st.device_ip a } := by
  unfold do_setip at h
  split at h
  · left; cases h; rfl
  · split at h
    · cases h
    · rename_i a ha
      split at h
      · left; cases h; rfl
      · rename_i hlt
        right
        refine ⟨a, ha, by omega, ?_⟩
        cases h; rfl

/-- A returning call of `do_setid` keeps the state or stores the value that
`strtoul` gives for `argv[1]`; it always reports success. -/
theorem do_setid_some {argc : Int} {argv : List (List Nat)} {st : DeviceState} {o : Outcome}
    (h : do_setid argc argv st = some o) :
    o.ret = CMD_RET_SUCCESS ∧
    (o.state = st ∨ ∃ a, argv[1]? = some a ∧
      o.state = { st with device_id := strtoul a % 2 ^ 32 }) := by
  unfold do_setid at h
  split at h
  · cases h; exact ⟨rfl, Or.inl rfl⟩
  · split at h
    · cases h
    · rename_i a ha
      cases h
      exact ⟨rfl, Or.inr ⟨a, ha, rfl⟩⟩

/-- A handler fails to return exactly when it is asked for `argv[1]` and the
argument list has no such entry. -/
theorem handler_none_iff (argc : Int) (argv : List (List Nat)) (st : DeviceState) :
    (do_name argc argv st = none ↔ argc ≠ 1 ∧ argv.length ≤ 1) ∧
    (do_setid argc argv st = none ↔ argc ≠ 1 ∧ argv.length ≤ 1) ∧
    (do_setip argc argv st = none ↔ argc ≠ 1 ∧ argv.length ≤ 1) := by
  have key : ∀ l : List (List Nat), l[1]? = none ↔ l.length ≤ 1 := by
    intro l
    rw [List.getElem?_eq_none_iff]
  refine ⟨?_, ?_, ?_⟩
  · unfold do_name
    by_cases h1 : argc = 1
    · simp [h1]
    · cases ha : argv[1]? with
      | none => simpa [h1, ha] using (key argv).mp ha
      | some a =>
        have : ¬ argv.length ≤ 1 := fun hl => by
          rw [(key argv).mpr hl] at ha; cases ha
        simp only [h1, if_false, ha]
        split <;> simp [this]
  · unfold do_setid
    by_cases h1 : argc = 1
    · simp [h1]
    · cases ha : argv[1]? with
      | none => simpa [h1, ha] using (key argv).mp ha
      | some a =>
        have : ¬ argv.length ≤ 1 := fun hl => by
          rw [(key argv).mpr hl] at ha; cases ha
        simp [h1, ha, this]
  · unfold do_setip
    by_cases h1 : argc = 1
    · simp [h1]
    · cases ha : argv[1]? with
      | none => simpa [h1, ha] using (key argv).mp ha
      | some a =>
        have : ¬ argv.length ≤ 1 := fun hl => by
          rw [(key argv).mpr hl] at ha; cases ha
        simp only [h1, if_false, ha]
        split <;> simp [this]

/-! ## Default state, incoming calls, frame and argument indexing -/

/-- C14. Default device state: at program start the name is the empty string,
the id is 0 and the address is the empty string; `do_name`, `do_setid` and
`do_setip` called with one argument return `CMD_RET_SUCCESS`, keep the state
and print an empty name, the id 0 and an empty address. -/
theorem initial_state_defaults :
    cstr initial_state.device_name = [] ∧
    initial_state.device_id = 0 ∧
    cstr initial_state.device_ip = [] ∧
    do_name 1 [lit "name"] initial_state =
      some ⟨CMD_RET_SUCCESS, initial_state, lit "Current name set is: \n"⟩ ∧
    do_setid 1 [lit "setid"] initial_state =
      some ⟨CMD_RET_SUCCESS, initial_state, lit "ID is 0\n"⟩ ∧
    do_setip 1 [lit "setip"] initial_state =
      some ⟨CMD_RET_SUCCESS, initial_state, lit "IP is \n"⟩ := by
  decide

/-- C15. Incoming-call routing: for the incoming-call event code
`urc_callback` emits exactly one diagnostic, the format "Incoming voice call
from: %s" applied to the `number` field of the record the payload points to,
so its message contains the string held in that field, for every record. -/
theorem urc_incoming_call (K : ril_h) (hK : K.labels_distinct)
    (mem : Nat → ril_callinfo_t) (p : Nat) :
    urc_callback K mem K.URC_COMING_CALL_IND p =
      [debug DBG_OFF (lit "Incoming voice call from: %s\n") [Arg.str (mem p).number]] ∧
    (urc_callback K mem K.URC_COMING_CALL_IND p).length = 1 ∧
    (urc_callback K mem K.URC_COMING_CALL_IND p).map debug_call.text =
      [lit "Incoming voice call from: " ++ cstr (mem p).number ++ lit "\n"] ∧
    (IsCStr (mem p).number →
      (urc_callback K mem K.URC_COMING_CALL_IND p).map debug_call.text =
        [lit "Incoming voice call from: " ++ (mem p).number ++ lit "\n"]) := by
  have hu := hK.1
  simp only [ril_h.urc_labels, List.nodup_cons, List.mem_cons, List.mem_singleton, not_or,
    List.not_mem_nil, not_false_eq_true, List.nodup_nil, and_true] at hu
  have e : urc_callback K mem K.URC_COMING_CALL_IND p =
      [debug DBG_OFF (lit "Incoming voice call from: %s\n") [Arg.str (mem p).number]] := by
    simp [urc_callback, hu, Ne.symm, eq_comm]
  refine ⟨e, ?_, ?_, ?_⟩
  · rw [e]; rfl
  · rw [e]; rfl
  · intro hn
    rw [e]
    show [lit "Incoming voice call from: " ++ cstr (mem p).number ++ lit "\n"] = _
    rw [cstr_of_isCStr hn]

/-- Witness of C15 on the sample numbering and the sample memory, whose
records hold the number "5550100". -/
theorem urc_incoming_call_witness :
    sample_ril_h.labels_distinct ∧
    (urc_callback sample_ril_h sample_mem sample_ril_h.URC_COMING_CALL_IND 4096).map
        debug_call.text =
      [lit "Incoming voice call from: " ++ lit "5550100" ++ lit "\n"] :=
  ⟨by decide,
   (urc_incoming_call sample_ril_h (by decide) sample_mem 4096).2.2.2 (by decide)⟩

/-- C16. Frame of the handlers: for every device state and argument list, a
call of `do_name` changes at most `device_name`, `do_setid` at most
`device_id`, `do_setip` at most `device_ip`; each handler called with
`argc = 1` returns and leaves the whole state unchanged; `urc_callback` leaves
the device state unchanged for every event.  A handler gives no result only
when it is asked for `argv[1]` and the list has no such entry. -/
theorem handlers_frame (argc : Int) (argv : List (List Nat)) (st : DeviceState)
    (K : ril_h) (mem : Nat → ril_callinfo_t) (code p : Nat) :
    (∀ o, do_name argc argv st = some o →
      o.state.device_id = st.device_id ∧ o.state.device_ip = st.device_ip) ∧
    (∀ o, do_setid argc argv st = some o →
      o.state.device_name = st.device_name ∧ o.state.device_ip = st.device_ip) ∧
    (∀ o, do_setip argc argv st = some o →
      o.state.device_name = st.device_name ∧ o.state.device_id = st.device_id) ∧
    (do_name 1 argv st).map (fun o => o.state) = some st ∧
    (do_setid 1 argv st).map (fun o => o.state) = some st ∧
    (do_setip 1 argv st).map (fun o => o.state) = some st ∧
    (urc_callback_step K mem code p st).1 = st ∧
    (do_name argc argv st = none ↔ argc ≠ 1 ∧ argv.length ≤ 1) ∧
    (do_setid argc argv st = none ↔ argc ≠ 1 ∧ argv.length ≤ 1) ∧
    (do_setip argc argv st = none ↔ argc ≠ 1 ∧ argv.length ≤ 1) := by
  obtain ⟨n1, n2, n3⟩ := handler_none_iff argc argv st
  refine ⟨?_, ?_, ?_, rfl, rfl, rfl, rfl, n1, n2, n3⟩
  · intro o h
    rcases do_name_some h with h1 | ⟨a, _, _, h1⟩ <;> rw [h1] <;> exact ⟨rfl, rfl⟩
  · intro o h
    rcases (do_setid_some h).2 with h1 | ⟨a, _, h1⟩ <;> rw [h1] <;> exact ⟨rfl, rfl⟩
  · intro o h
    rcases do_setip_some h with h1 | ⟨a, _, _, h1⟩ <;> rw [h1] <;> exact ⟨rfl, rfl⟩

/-- Witness of C16: setting the name "dev" on the sample state keeps its id
and address, and the read form of `do_setid` keeps the whole state. -/
theorem handlers_frame_witness :
    (∃ o, do_name 2 [lit "name", lit "dev"] sample_state = some o ∧
      o.state.device_id = sample_state.device_id ∧
      o.state.device_ip = sample_state.device_ip) ∧
    (do_setid 1 [lit "setid"] sample_state).map (fun o => o.state) = some sample_state :=
  ⟨⟨_, rfl, (handlers_frame 2 [lit "name", lit "dev"] sample_state sample_ril_h sample_mem
      0 0).1 _ rfl⟩,
   (handlers_frame 1 [lit "setid"] sample_state sample_ril_h sample_mem 0 0).2.2.2.2.1⟩

/-- C18. Argument indexing under the arity bounds: when `1 ≤ argc ≤ 2` and
`argv` has exactly `argc` entries, each of `do_name`, `do_setid`, `do_setip`
returns (the out-of-range case does not occur); with `argc = 1` its result
does not depend on `argv` at all, and in every case it depends on `argv` only
through the entry of index 1, which lies below `argc` when it is read. -/
theorem handlers_index_safe (argc : Int) (argv other : List (List Nat)) (st : DeviceState)
    (h1 : 1 ≤ argc) (h2 : argc ≤ 2) (hlen : (argv.length : Int) = argc) :
    (do_name argc argv st).isSome = true ∧
    (do_setid argc argv st).isSome = true ∧
    (do_setip argc argv st).isSome = true ∧
    (argc = 1 → do_name argc argv st = do_name argc other st ∧
      do_setid argc argv st = do_setid argc other st ∧
      do_setip argc argv st = do_setip argc other st) ∧
    (argv[1]? = other[1]? → do_name argc argv st = do_name argc other st ∧
      do_setid argc argv st = do_setid argc other st ∧
      do_setip argc argv st = do_setip argc other st) ∧
    (argc ≠ 1 → ∃ a, argv[1]? = some a ∧ (1 : Int) < argc) := by
  obtain ⟨n1, n2, n3⟩ := handler_none_iff argc argv st
  have hsafe : ¬ (argc ≠ 1 ∧ argv.length ≤ 1) := by
    rintro ⟨ha, hl⟩
    omega
  refine ⟨?_, ?_, ?_, ?_, ?_, ?_⟩
  · rw [Option.isSome_iff_ne_none]
    exact fun h => hsafe (n1.mp h)
  · rw [Option.isSome_iff_ne_none]
    exact fun h => hsafe (n2.mp h)
  · rw [Option.isSome_iff_ne_none]
    exact fun h => hsafe (n3.mp h)
  · intro h
    subst h
    exact ⟨rfl, rfl, rfl⟩
  · intro h
    simp only [do_name, do_setid, do_setip, h]
    exact ⟨trivial, trivial, trivial⟩
  · intro h
    have hl : argv.length = 2 := by omega
    have hlt : 1 < argv.length := by omega
    exact ⟨argv[1], List.getElem?_eq_getElem hlt, by omega⟩

/-- Witness of C18: the write form of `do_setip` with two arguments returns,
and its result does not depend on `argv[0]`. -/
theorem handlers_index_safe_witness :
    (do_setip 2 [lit "setip", lit "10.1.2.3"] sample_state).isSome = true ∧
    do_setip 2 [lit "setip", lit "10.1.2.3"] sample_state =
      do_setip 2 [lit "x", lit "10.1.2.3"] sample_state :=
  ⟨(handlers_index_safe 2 [lit "setip", lit "10.1.2.3"] [lit "x", lit "10.1.2.3"] sample_state
      (by decide) (by decide) (by decide)).2.2.1,
   ((handlers_index_safe 2 [lit "setip", lit "10.1.2.3"] [lit "x", lit "10.1.2.3"] sample_state
      (by decide) (by decide) (by decide)).2.2.2.2.1 rfl).2.2⟩

/-! ## The bounded-buffer invariant -/

theorem strlen_strcpy (dst src : List Nat) : strlen (strcpy dst src) = strlen src := by
  unfold strlen
  rw [cstr_strcpy]

/-- One returning handler call keeps the arrays in their bounds. -/
theorem buffers_ok_step (c : Call) (st : DeviceState) (o : Outcome)
    (hst : buffers_ok st) (h : c.run st = some o) : buffers_ok o.state := by
  obtain ⟨hn, hns, hi, his⟩ := hst
  unfold Call.run at h
  split at h
  · rcases do_name_some h with h1 | ⟨a, _, hlt, h1⟩
    · rw [h1]; exact ⟨hn, hns, hi, his⟩
    · rw [h1]
      unfold sizeof_device_name at hlt hn
      refine ⟨?_, ?_, hi, his⟩
      · show (strcpy st.device_name a).length = sizeof_device_name
        rw [length_strcpy _ _ (by omega)]
        exact hn
      · show strlen (strcpy st.device_name a) ≤ 49
        rw [strlen_strcpy]
        omega
  · rcases (do_setid_some h).2 with h1 | ⟨a, _, h1⟩ <;> rw [h1] <;> exact ⟨hn, hns, hi, his⟩
  · rcases do_setip_some h with h1 | ⟨a, _, hlt, h1⟩
    · rw [h1]; exact ⟨hn, hns, hi, his⟩
    · rw [h1]
      unfold sizeof_device_ip at hlt hi
      refine ⟨hn, hns, ?_, ?_⟩
      · show (strcpy st.device_ip a).length = sizeof_device_ip
        rw [length_strcpy _ _ (by omega)]
        exact hi
      · show strlen (strcpy st.device_ip a) ≤ 99
        rw [strlen_strcpy]
        omega

/-- A call within the arity bounds returns. -/
theorem run_in_bounds (c : Call) (st : DeviceState) (hc : c.in_bounds) :
    ∃ o, c.run st = some o := by
  obtain ⟨hargc, hlen⟩ := hc
  obtain ⟨n1, n2, n3⟩ := handler_none_iff c.argc c.argv st
  have hsafe : ¬ (c.argc ≠ 1 ∧ c.argv.length ≤ 1) := by
    rintro ⟨ha, hl⟩
    omega
  rw [← Option.isSome_iff_exists, Option.isSome_iff_ne_none]
  unfold Call.run
  split
  · exact fun h => hsafe (n1.mp h)
  · exact fun h => hsafe (n2.mp h)
  · exact fun h => hsafe (n3.mp h)

/-- Every state a sequence of returning calls reaches from a state within the
bounds is within the bounds. -/
theorem buffers_ok_run (calls : List Call) (st st1 : DeviceState)
    (hst : buffers_ok st) (h : run_calls calls st = some st1) : buffers_ok st1 := by
  induction calls generalizing st with
  | nil =>
    simp only [run_calls, Option.some.injEq] at h
    exact h ▸ hst
  | cons c cs ih =>
    simp only [run_calls] at h
    cases hc : c.run st with
    | none => rw [hc] at h; cases h
    | some o =>
      rw [hc] at h
      exact ih o.state (buffers_ok_step c st o hst hc) h

/-- C17. Bounded-buffer invariant: every sequence of `do_name`, `do_setid` and
`do_setip` calls with one or two arguments, started in the initial state, runs
to a state in which the stored name has at most 49 bytes and the stored
address at most 99, inside arrays that still have 50 and 100 bytes, so each
string fits its array together with its terminator. -/
theorem reachable_buffers_ok (calls : List Call) (hcalls : ∀ c ∈ calls, c.in_bounds) :
    ∃ st, run_calls calls initial_state = some st ∧
      strlen st.device_name ≤ 49 ∧ strlen st.device_ip ≤ 99 ∧
      st.device_name.length = 50 ∧ st.device_ip.length = 100 ∧
      strlen st.device_name + 1 ≤ st.device_name.length ∧
      strlen st.device_ip + 1 ≤ st.device_ip.length := by
  have total : ∀ (cs : List Call) (s : DeviceState), (∀ c ∈ cs, c.in_bounds) →
      ∃ s1, run_calls cs s = some s1 := by
    intro cs
    induction cs with
    | nil => intro s _; exact ⟨s, rfl⟩
    | cons c cs ih =>
      intro s hcs
      obtain ⟨o, ho⟩ := run_in_bounds c s (hcs c (List.mem_cons_self c cs))
      obtain ⟨s1, hs1⟩ := ih o.state (fun x hx => hcs x (List.mem_cons_of_mem c hx))
      exact ⟨s1, by simp only [run_calls, ho, hs1]⟩
  obtain ⟨st, hst⟩ := total calls initial_state hcalls
  have hinit : buffers_ok initial_state := by decide
  obtain ⟨h1, h2, h3, h4⟩ := buffers_ok_run calls initial_state st hinit hst
  unfold sizeof_device_name at h1
  unfold sizeof_device_ip at h3
  exact ⟨st, hst, h2, h4, h1, h3, by omega, by omega⟩

/-- Witness of C17: a name of 49 bytes, an over-long name, an id and an address
set one after the other from the initial state. -/
theorem reachable_buffers_ok_witness :
    ∃ st, run_calls
        [⟨handler_id.name, 2, [lit "name", List.replicate 49 97]⟩,
         ⟨handler_id.name, 2, [lit "name", name50]⟩,
         ⟨handler_id.setid, 2, [lit "setid", lit "77"]⟩,
         ⟨handler_id.setip, 2, [lit "setip", lit "10.1.2.3"]⟩,
         ⟨handler_id.setip, 1, [lit "setip"]⟩] initial_state = some st ∧
      strlen st.device_name ≤ 49 ∧ strlen st.device_ip ≤ 99 ∧
      st.device_name.length = 50 ∧ st.device_ip.length = 100 ∧
      strlen st.device_name + 1 ≤ st.device_name.length ∧
      strlen st.device_ip + 1 ≤ st.device_ip.length :=
  reachable_buffers_ok _ (by decide)

/-! ## The value stored by `do_setid` -/

theorem strtoul_digits_eq_foldl (s : List Nat) (acc : Nat) :
    strtoul_digits s acc =
      (leading_numeral s).foldl (fun a c => a * 10 + (c - 48)) acc := by
  induction s generalizing acc with
  | nil => rfl
  | cons c t ih =>
    by_cases hc : isdigit c = true
    · simp only [strtoul_digits, hc, if_true, leading_numeral, List.takeWhile_cons,
        List.foldl_cons]
      exact ih _
    · simp only [strtoul_digits, hc, leading_numeral, List.takeWhile_cons, List.foldl_nil]
      rfl

/-- The digit loop of `strtoul` computes the value of the longest leading
decimal numeral. -/
theorem strtoul_digits_eq (s : List Nat) :
    strtoul_digits s 0 = numeral_value (leading_numeral s) :=
  strtoul_digits_eq_foldl s 0

theorem strtoul_result_lt (v : Nat) (neg : Prop) [Decidable neg] :
    (if v > ULONG_MAX then ULONG_MAX else if neg then (2 ^ 32 - v) % 2 ^ 32 else v) <
      2 ^ 32 := by
  unfold ULONG_MAX
  split
  · omega
  · split
    · exact Nat.mod_lt _ (by norm_num)
    · omega

/-- The result of `strtoul` fits an `unsigned long`. -/
theorem strtoul_lt (s : List Nat) : strtoul s < 2 ^ 32 := by
  unfold strtoul
  exact strtoul_result_lt _ _

/-- Without leading white space or sign, `strtoul` gives the value of the
leading numeral, or `ULONG_MAX` when that value is larger. -/
theorem strtoul_plain (s : List Nat)
    (hs : ∀ c, s.head? = some c → isspace c = false ∧ c ≠ 43 ∧ c ≠ 45) :
    strtoul s = min (numeral_value (leading_numeral s)) (2 ^ 32 - 1) := by
  have hbody : s.dropWhile isspace = s := by
    cases s with
    | nil => rfl
    | cons c t =>
      have := (hs c rfl).1
      simp [List.dropWhile, this]
  have h45 : ¬ s.head? = some 45 := fun h => (hs 45 h).2.2 rfl
  have h43 : ¬ s.head? = some 43 := fun h => (hs 43 h).2.1 rfl
  unfold strtoul
  simp only [hbody, h45, h43, or_self, if_false, decide_False, strtoul_digits_eq]
  unfold ULONG_MAX
  split
  · omega
  · omega

/-- Leading white space is skipped by `strtoul`. -/
theorem strtoul_space (w : Nat) (s : List Nat) (hw : isspace w = true) :
    strtoul (w :: s) = strtoul s := by
  unfold strtoul
  simp only [List.dropWhile, hw]

/-- After a plus sign `strtoul` converts the digits that follow. -/
theorem strtoul_plus (s : List Nat) :
    strtoul (43 :: s) = min (numeral_value (leading_numeral s)) (2 ^ 32 - 1) := by
  have hsp : isspace 43 = false := by decide
  unfold strtoul
  simp only [List.dropWhile, hsp, List.head?_cons, List.tail_cons, strtoul_digits_eq]
  unfold ULONG_MAX
  simp only [Option.some.injEq, Nat.reduceEqDiff, or_true, if_true, decide_False,
    Bool.false_eq_true, if_false]
  split <;> omega

/-- After a minus sign `strtoul` converts the digits that follow and negates
the value in 32-bit arithmetic, unless it is larger than `ULONG_MAX`. -/
theorem strtoul_minus (s : List Nat) :
    strtoul (45 :: s) =
      if numeral_value (leading_numeral s) > 2 ^ 32 - 1 then 2 ^ 32 - 1
      else (2 ^ 32 - numeral_value (leading_numeral s)) % 2 ^ 32 := by
  have hsp : isspace 45 = false := by decide
  unfold strtoul
  simp only [List.dropWhile, hsp, List.head?_cons, List.tail_cons, strtoul_digits_eq]
  unfold ULONG_MAX
  simp only [true_or, if_true, decide_True]

/-- The write form of `do_setid` succeeds for every argument and stores what
`strtoul` gives. -/
theorem stored_id_eq (s : List Nat) (st : DeviceState) :
    do_setid 2 [lit "setid", s] st =
      some ⟨CMD_RET_SUCCESS, { st with device_id := strtoul s },
        lit "New ID is " ++ fmt_d (strtoul s) ++ lit "\n"⟩ ∧
    stored_id s st = some (strtoul s) := by
  have hne : ¬ ((2 : Int) = 1) := by decide
  have hmod : strtoul s % 2 ^ 32 = strtoul s := Nat.mod_eq_of_lt (strtoul_lt s)
  have e : do_setid 2 [lit "setid", s] st =
      some ⟨CMD_RET_SUCCESS, { st with device_id := strtoul s },
        lit "New ID is " ++ fmt_d (strtoul s) ++ lit "\n"⟩ := by
    simp only [do_setid, hne, if_false, List.getElem?_cons_succ, List.getElem?_cons_zero, hmod]
    rfl
  refine ⟨e, ?_⟩
  unfold stored_id
  rw [e]
  rfl

/-- C19 as stated fails at the argument "4294967296": the call succeeds, but
the id stored is `4294967295`, while the value of the leading numeral reduced
modulo `2 ^ 32` is `0`.  It fails as well at " 7" and at "-1", which have no
leading digit and store `7` and `4294967295`, not `0`. -/
theorem do_setid_not_modulo :
    do_setid 2 [lit "setid", lit "4294967296"] sample_state =
      some ⟨CMD_RET_SUCCESS, { sample_state with device_id := 4294967295 },
        lit "New ID is -1\n"⟩ ∧
    leading_numeral (lit "4294967296") = lit "4294967296" ∧
    numeral_value (leading_numeral (lit "4294967296")) % 2 ^ 32 = 0 ∧
    stored_id (lit "4294967296") sample_state ≠
      some (numeral_value (leading_numeral (lit "4294967296")) % 2 ^ 32) ∧
    leading_numeral (lit " 7") = [] ∧
    stored_id (lit " 7") sample_state = some 7 ∧
    leading_numeral (lit "-1") = [] ∧
    stored_id (lit "-1") sample_state = some 4294967295 := by
  decide

/-- C19, amended. `do_setid` never fails: for every argument `s` the write
form returns `CMD_RET_SUCCESS` and replaces the id by a value below `2 ^ 32`.
When `s` starts with neither white space nor a sign, that value is the value
of the longest leading decimal numeral of `s`, or `2 ^ 32 - 1` when the
numeral is larger (`0` when there is no leading numeral, as for "abc").
Leading white space is skipped; after a plus sign the numeral that follows is
taken the same way; after a minus sign its value is negated modulo `2 ^ 32`,
unless it is larger than `2 ^ 32 - 1`, which gives `2 ^ 32 - 1`. -/
theorem do_setid_never_fails (s : List Nat) (w : Nat) (st : DeviceState) :
    (∃ id out, do_setid 2 [lit "setid", s] st =
        some ⟨CMD_RET_SUCCESS, { st with device_id := id }, out⟩ ∧
      id < 2 ^ 32 ∧ stored_id s st = some id) ∧
    ((∀ c, s.head? = some c → isspace c = false ∧ c ≠ 43 ∧ c ≠ 45) →
      stored_id s st = some (min (numeral_value (leading_numeral s)) (2 ^ 32 - 1))) ∧
    (isspace w = true → stored_id (w :: s) st = stored_id s st) ∧
    stored_id (43 :: s) st = some (min (numeral_value (leading_numeral s)) (2 ^ 32 - 1)) ∧
    stored_id (45 :: s) st =
      some (if numeral_value (leading_numeral s) > 2 ^ 32 - 1 then 2 ^ 32 - 1
        else (2 ^ 32 - numeral_value (leading_numeral s)) % 2 ^ 32) ∧
    stored_id (lit "abc") st = some 0 ∧
    stored_id (lit "4294967296") st = some 4294967295 := by
  refine ⟨⟨strtoul s, _, (stored_id_eq s st).1, strtoul_lt s, (stored_id_eq s st).2⟩,
    ?_, ?_, ?_, ?_, ?_, ?_⟩
  · intro hs
    rw [(stored_id_eq s st).2, strtoul_plain s hs]
  · intro hw
    rw [(stored_id_eq _ st).2, (stored_id_eq s st).2, strtoul_space w s hw]
  · rw [(stored_id_eq _ st).2, strtoul_plus]
  · rw [(stored_id_eq _ st).2, strtoul_minus]
  · rw [(stored_id_eq _ st).2]
    exact congrArg some (by decide)
  · rw [(stored_id_eq _ st).2]
    exact congrArg some (by decide)

/-- Witness of C19, amended: the arguments "12abc" and " 12abc" on the sample
state both store 12. -/
theorem do_setid_never_fails_witness :
    stored_id (lit "12abc") sample_state =
      some (min (numeral_value (leading_numeral (lit "12abc"))) (2 ^ 32 - 1)) ∧
    stored_id (32 :: lit "12abc") sample_state = stored_id (lit "12abc") sample_state ∧
    numeral_value (leading_numeral (lit "12abc")) = 12 :=
  ⟨(do_setid_never_fails (lit "12abc") 32 sample_state).2.1 (by decide),
   (do_setid_never_fails (lit "12abc") 32 sample_state).2.2.1 (by decide),
   by decide⟩

/-! ## Registry and dispatcher -/

theorem lookup_name : lookup registry (lit "name") =
    some { name := lit "name", min_args := 1, max_args := 2, handler := do_name
           help := lit "Set/get device name", usage := lit "name [value]"
           flags := [CMD_TYPE_DEFAULT] } := rfl

theorem lookup_setid : lookup registry (lit "setid") =
    some { name := lit "setid", min_args := 1, max_args := 2, handler := do_setid
           help := lit "Set/get device ID", usage := lit "setid [value]"
           flags := [CMD_TYPE_HIDDEN] } := rfl

theorem lookup_setip : lookup registry (lit "setip") =
    some { name := lit "setip", min_args := 1, max_args := 2, handler := do_setip
           help := lit "set/get current IP", usage := lit "setip [IP/domain]"
           flags := [CMD_TYPE_HIDDEN, CMD_ALLOW_CONSOLE] } := rfl

/-- A line whose first token is a registered command and whose token count is
above 2 is refused with a usage error before any handler runs. -/
theorem execute_tokens_usage (cmd : List Nat) (rest : List (List Nat))
    (sess : ConsoleSession) (st : DeviceState)
    (hcmd : cmd ∈ [lit "name", lit "setid", lit "setip"])
    (hcount : 2 < (cmd :: rest).length) :
    execute_tokens registry sess (cmd :: rest) st =
      some ⟨CMD_RET_FAILURE, some usage_error, 0, st, []⟩ := by
  simp only [List.mem_cons, List.mem_singleton, List.not_mem_nil, or_false] at hcmd
  rcases hcmd with h | h | h <;> subst h
  · simp only [execute_tokens, lookup_name]
    rw [if_pos (Or.inr hcount)]
  · simp only [execute_tokens, lookup_setid]
    rw [if_pos (Or.inr hcount)]
  · simp only [execute_tokens, lookup_setip]
    rw [if_pos (Or.inr hcount)]

/-- C12. Arity validation: for each of the registered commands `name`, `setid`
and `setip`, whose bounds are [1, 2], an invocation with a token count
(command name included) below 1 or above 2 is refused with a usage error,
whatever the session: the status is failure, no handler runs and the state is
kept.  So it is for the line "setid 1 2". -/
theorem execute_arity (cmd : List Nat) (rest : List (List Nat))
    (sess : ConsoleSession) (st : DeviceState)
    (hcmd : cmd ∈ [lit "name", lit "setid", lit "setip"])
    (hcount : (cmd :: rest).length < 1 ∨ 2 < (cmd :: rest).length) :
    execute_tokens registry sess (cmd :: rest) st =
      some ⟨CMD_RET_FAILURE, some usage_error, 0, st, []⟩ ∧
    (∀ d ∈ registry, d.min_args = 1 ∧ d.max_args = 2) ∧
    execute (lit "setid 1 2") sess st =
      some ⟨CMD_RET_FAILURE, some usage_error, 0, st, []⟩ := by
  have hc : 2 < (cmd :: rest).length := by
    rcases hcount with h | h
    · simp only [List.length_cons] at h
      omega
    · exact h
  refine ⟨execute_tokens_usage cmd rest sess st hcmd hc, by decide, ?_⟩
  exact execute_tokens_usage (lit "setid") [lit "1", lit "2"] sess st (by decide) (by decide)

/-- Witness of C12: the tokens "name a b" from an admin session on the sample
state. -/
theorem execute_arity_witness :
    execute_tokens registry ⟨AUTH_ADMIN, true⟩ [lit "name", lit "a", lit "b"] sample_state =
      some ⟨CMD_RET_FAILURE, some usage_error, 0, sample_state, []⟩ :=
  (execute_arity (lit "name") [lit "a", lit "b"] ⟨AUTH_ADMIN, true⟩ sample_state
    (by decide) (by decide)).1

/-- C11. Privilege gating of `setid`: for every session below admin level,
whatever its channel, an invocation of `setid` within the arity bounds is
refused with an authorization failure; for every token count the status is
failure, the handler is not run and the device state is kept.  So it is for a
user session and the line "setid 5", which an admin session runs. -/
theorem execute_setid_unprivileged (sess : ConsoleSession) (st : DeviceState)
    (args : List (List Nat)) (hpriv : sess.privilege.rank < AUTH_ADMIN.rank) :
    (args.length ≤ 1 →
      execute_tokens registry sess (lit "setid" :: args) st =
        some ⟨CMD_RET_FAILURE, some authorization_failure, 0, st, []⟩) ∧
    (∃ r, execute_tokens registry sess (lit "setid" :: args) st = some r ∧
      r.status = CMD_RET_FAILURE ∧ r.handler_runs = 0 ∧ r.state = st) ∧
    execute (lit "setid 5") ⟨AUTH_USER, sess.console⟩ st =
      some ⟨CMD_RET_FAILURE, some authorization_failure, 0, st, []⟩ ∧
    execute (lit "setid 5") ⟨AUTH_ADMIN, sess.console⟩ st =
      some ⟨CMD_RET_SUCCESS, none, 1, { st with device_id := 5 }, lit "New ID is 5\n"⟩ := by
  have hreq : sess.privilege.rank < (AUTH_ADMIN).rank ∧
      ¬ (([CMD_TYPE_HIDDEN] : List cmd_flag).contains CMD_ALLOW_CONSOLE = true ∧
        sess.console = true) := ⟨hpriv, fun h => absurd h.1 (by decide)⟩
  have within : args.length ≤ 1 →
      execute_tokens registry sess (lit "setid" :: args) st =
        some ⟨CMD_RET_FAILURE, some authorization_failure, 0, st, []⟩ := by
    intro hlen
    have hb : ¬ ((lit "setid" :: args).length < 1 ∨ 2 < (lit "setid" :: args).length) := by
      simp only [List.length_cons]
      omega
    simp only [execute_tokens, lookup_setid]
    rw [if_neg hb]
    exact if_pos hreq
  refine ⟨within, ?_, ?_, ?_⟩
  · by_cases hlen : args.length ≤ 1
    · exact ⟨_, within hlen, rfl, rfl, rfl⟩
    · have hc : 2 < (lit "setid" :: args).length := by
        simp only [List.length_cons]
        omega
      exact ⟨_, execute_tokens_usage (lit "setid") args sess st (by decide) hc, rfl, rfl, rfl⟩
  · cases hcon : sess.console <;> rfl
  · have h5 := (stored_id_eq (lit "5") st).1
    have hv : strtoul (lit "5") = 5 := by decide
    have hf : lit "New ID is " ++ fmt_d 5 ++ lit "\n" = lit "New ID is 5\n" := by decide
    rw [hv, hf] at h5
    have ht : tokenize (lit "setid 5") = [lit "setid", lit "5"] := by decide
    have hlen : (([lit "setid", lit "5"] : List (List Nat)).length : Int) = 2 := rfl
    simp only [execute, ht, execute_tokens, lookup_setid, hlen, h5]
    rw [if_neg (by decide), if_neg (fun h => absurd h.1 (by decide))]

/-- Witness of C11: a user session on the local console calling `setid 5` on
the sample state. -/
theorem execute_setid_unprivileged_witness :
    execute_tokens registry ⟨AUTH_USER, true⟩ [lit "setid", lit "5"] sample_state =
      some ⟨CMD_RET_FAILURE, some authorization_failure, 0, sample_state, []⟩ :=
  (execute_setid_unprivileged ⟨AUTH_USER, true⟩ sample_state [lit "5"] (by decide)).1
    (by decide)

/-- C13. Registered descriptor table: main.c registers exactly three
descriptors, in the order `name`, `setid`, `setip`, with pairwise distinct
names and the handlers `do_name`, `do_setid`, `do_setip`; each has minimum
argument count 1 and maximum 2, so minimum at least 1 and maximum at least
minimum; `name` carries the DEFAULT flag and is the only one not flagged
HIDDEN, so the visible listing is `[name]` for every privilege; `setip` is the
only one flagged console-allowed. -/
theorem registry_table :
    registry.length = 3 ∧
    registry.map (fun d => d.name) = [lit "name", lit "setid", lit "setip"] ∧
    (registry.map (fun d => d.name)).Nodup ∧
    registry.map (fun d => d.handler) = [do_name, do_setid, do_setip] ∧
    (∀ d ∈ registry, 1 ≤ d.min_args ∧ d.min_args ≤ d.max_args ∧
      d.min_args = 1 ∧ d.max_args = 2) ∧
    registry.map (fun d => d.flags) =
      [[CMD_TYPE_DEFAULT], [CMD_TYPE_HIDDEN], [CMD_TYPE_HIDDEN, CMD_ALLOW_CONSOLE]] ∧
    (registry.filter (fun d => d.flags.contains CMD_TYPE_DEFAULT)).map (fun d => d.name) =
      [lit "name"] ∧
    (registry.filter (fun d => !(d.flags.contains CMD_TYPE_HIDDEN))).map (fun d => d.name) =
      [lit "name"] ∧
    (∀ privilege, (list_visible registry privilege).map (fun d => d.name) = [lit "name"]) ∧
    (registry.filter (fun d => d.flags.contains CMD_ALLOW_CONSOLE)).map (fun d => d.name) =
      [lit "setip"] := by
  refine ⟨rfl, by decide, by decide, rfl, by decide, by decide, by decide, by decide, ?_,
    by decide⟩
  intro privilege
  unfold list_visible
  decide

/-! ## The generic SIM diagnostic and the raw sub-value -/

/-- An unlisted SIM sub-value takes the `default` branch of the inner
`switch`. -/
theorem urc_callback_sim_other (K : ril_h) (hK : K.labels_distinct)
    (mem : Nat → ril_callinfo_t) (v : Nat) (hv : v ∉ K.sim_labels) :
    urc_callback K mem K.URC_SIM_CARD_STATE_IND v =
      [debug DBG_OFF (lit "SYSTEM: SIM ERROR: %d\n") [Arg.int v]] := by
  simp only [ril_h.sim_labels, List.mem_cons, List.mem_singleton, not_or,
    List.not_mem_nil, not_false_eq_true, and_true] at hv
  obtain ⟨b1, b2, b3, b4, b5⟩ := hv
  rw [urc_callback_sim K hK, if_neg b1, if_neg b2, if_neg b3, if_neg b4, if_neg b5]

/-- Below `2 ^ 31` the generic SIM diagnostic shows the decimal numeral of the
unlisted sub-value. -/
theorem urc_sim_other_text_small (K : ril_h) (hK : K.labels_distinct)
    (mem : Nat → ril_callinfo_t) (v : Nat) (hv : v ∉ K.sim_labels) (hlt : v < 2 ^ 31) :
    (urc_callback K mem K.URC_SIM_CARD_STATE_IND v).map debug_call.text =
      [lit "SYSTEM: SIM ERROR: " ++ dec v ++ lit "\n"] := by
  rw [urc_callback_sim_other K hK mem v hv, ← fmt_d_of_lt hlt]
  rfl

/-- C6, at the sub-value `4294967295`.  Whenever that value is none of the
five SIM labels, the SIM-state event emits exactly one diagnostic, the generic
one, but its message shows `-1`, not the raw sub-value `4294967295`: the
conversion `%d` reads the `unsigned int` as a signed `int`. -/
theorem urc_sim_other_prints_negative (K : ril_h) (hK : K.labels_distinct)
    (mem : Nat → ril_callinfo_t) (hv : 4294967295 ∉ K.sim_labels) :
    dec 4294967295 = lit "4294967295" ∧
    urc_callback K mem K.URC_SIM_CARD_STATE_IND 4294967295 =
      [debug DBG_OFF (lit "SYSTEM: SIM ERROR: %d\n") [Arg.int 4294967295]] ∧
    (urc_callback K mem K.URC_SIM_CARD_STATE_IND 4294967295).map debug_call.text =
      [lit "SYSTEM: SIM ERROR: -1\n"] ∧
    lit "SYSTEM: SIM ERROR: -1\n" ≠
      lit "SYSTEM: SIM ERROR: " ++ dec 4294967295 ++ lit "\n" := by
  have e := urc_callback_sim_other K hK mem 4294967295 hv
  refine ⟨by decide, e, ?_, by decide⟩
  rw [e]
  decide

/-- Witness of C6 on the sample numbering, whose SIM labels are 0 to 4: the
SIM-state event with sub-value `4294967295`. -/
theorem urc_sim_other_prints_negative_witness :
    sample_ril_h.labels_distinct ∧
    4294967295 ∉ sample_ril_h.sim_labels ∧
    (urc_callback sample_ril_h sample_mem sample_ril_h.URC_SIM_CARD_STATE_IND
        4294967295).map debug_call.text =
      [lit "SYSTEM: SIM ERROR: -1\n"] :=
  ⟨by decide, by decide,
   (urc_sim_other_prints_negative sample_ril_h (by decide) sample_mem (by decide)).2.2.1⟩

end Console
